import Mathlib

/-!
Verification development for the duckling-ui backend, centred on the
asynchronous conversion subsystem in backend/services/converter.py and the
settings-resolution helpers in backend/routes/convert.py and
backend/routes/settings.py.  Python dictionaries are modelled as ordered
association lists (value semantics) and, where aliasing matters, as a heap
of dictionary objects; the external conversion engine and the filesystem
are modelled as oracles supplied to the embedded control flow.
-/

namespace Duckling

/-- A Python value as it appears in the settings dictionaries: scalars are
kept opaque (booleans, numeric literals as their source text, strings,
None) and dictionaries are insertion-ordered association lists, matching
Python dict ordering. -/
inductive PyVal where
  | vnone : PyVal
  | vbool : Bool → PyVal
  | vnum : String → PyVal
  | vstr : String → PyVal
  | vdict : List (String × PyVal) → PyVal
deriving Repr, Inhabited

/-- Lookup of a key in a Python dict (first match in the ordered entry
list), i.e. d[k] / d.get(k). -/
def lookupKey {α : Type} : List (String × α) → String → Option α
  | [], _ => none
  | (k, v) :: rest, key => if k = key then some v else lookupKey rest key

/-- Python dict assignment d[key] = v: replace the value at an existing
key in place (order preserved), or append the new key at the end. -/
def setKey {α : Type} : List (String × α) → String → α → List (String × α)
  | [], key, v => [(key, v)]
  | (k, w) :: rest, key, v =>
      if k = key then (k, v) :: rest else (k, w) :: setKey rest key v

/-- Shallow embedding of the deep_merge helper defined (identically) in
upload_and_convert, convert_from_url, convert_from_urls_batch and
load_user_settings in backend/routes/convert.py: iterate over the
override's items; when the key exists in the base and both values are
dicts, recurse; otherwise assign the override value. -/
def deep_merge : List (String × PyVal) → List (String × PyVal) → List (String × PyVal)
  | base, [] => base
  | base, (key, value) :: rest =>
      match lookupKey base key, value with
      | some (.vdict bsub), .vdict vsub =>
          deep_merge (setKey base key (.vdict (deep_merge bsub vsub))) rest
      | _, _ => deep_merge (setKey base key value) rest
termination_by _ upd => sizeOf upd
decreasing_by all_goals simp_wf <;> omega

/-- Shallow embedding of merge_settings from backend/routes/settings.py:
same algorithm as deep_merge, with the key-containment test factored
differently in the source. -/
def merge_settings : List (String × PyVal) → List (String × PyVal) → List (String × PyVal)
  | current, [] => current
  | current, (key, value) :: rest =>
      match lookupKey current key with
      | some cur =>
          match cur, value with
          | .vdict csub, .vdict vsub =>
              merge_settings (setKey current key (.vdict (merge_settings csub vsub))) rest
          | _, _ => merge_settings (setKey current key value) rest
      | none => merge_settings (setKey current key value) rest
termination_by _ upd => sizeOf upd
decreasing_by all_goals simp_wf <;> omega

mutual
/-- Well-formedness of a Python value: every dictionary reachable inside
it has pairwise-distinct keys (true of every dict Python can build). -/
def wfVal : PyVal → Bool
  | .vdict d => wfEntries d
  | _ => true

/-- Well-formedness of a dict's entry list: keys are distinct and all
values are well-formed. -/
def wfEntries : List (String × PyVal) → Bool
  | [] => true
  | (k, v) :: rest => ((lookupKey rest k).isNone && wfVal v) && wfEntries rest
end

/-- Distinctness of the keys of an entry list alone. -/
def distinctKeys : List (String × PyVal) → Bool
  | [] => true
  | (k, _) :: rest => (lookupKey rest k).isNone && distinctKeys rest

/-- Value stored by one merge step for a key: when both the existing
value and the override value are dicts the merge recurses, otherwise the
override value replaces the existing value entirely. -/
def stepVal : Option PyVal → PyVal → PyVal
  | some (.vdict bsub), .vdict vsub => .vdict (deep_merge bsub vsub)
  | _, v => v

/-- The value found under a key after a merge, as a function of the two
values found there before the merge. -/
def mergedAt (b : Option PyVal) : Option PyVal → Option PyVal
  | some v => some (stepVal b v)
  | none => b

/-- One step of merge_settings, analogous to stepVal. -/
def stepValM : Option PyVal → PyVal → PyVal
  | some (.vdict csub), .vdict vsub => .vdict (merge_settings csub vsub)
  | _, v => v

/-- The DEFAULT_CONVERSION_SETTINGS constant from backend/config.py, as a
value-level dict (numeric literals kept as their source text). -/
def DEFAULT_CONVERSION_SETTINGS : List (String × PyVal) :=
  [ ("ocr", .vdict [("enabled", .vbool true), ("language", .vstr "en"),
      ("force_full_page_ocr", .vbool false), ("backend", .vstr "ocrmac"),
      ("use_gpu", .vbool false), ("confidence_threshold", .vnum "0.5"),
      ("bitmap_area_threshold", .vnum "0.05")]),
    ("tables", .vdict [("enabled", .vbool true), ("structure_extraction", .vbool true),
      ("mode", .vstr "accurate"), ("do_cell_matching", .vbool true)]),
    ("images", .vdict [("extract", .vbool true), ("classify", .vbool true),
      ("generate_page_images", .vbool false), ("generate_picture_images", .vbool true),
      ("generate_table_images", .vbool true), ("images_scale", .vnum "1.0")]),
    ("enrichment", .vdict [("code_enrichment", .vbool false), ("formula_enrichment", .vbool false),
      ("picture_classification", .vbool false), ("picture_description", .vbool false)]),
    ("output", .vdict [("default_format", .vstr "markdown")]),
    ("performance", .vdict [("device", .vstr "auto"), ("num_threads", .vnum "4"),
      ("document_timeout", .vnone)]),
    ("chunking", .vdict [("enabled", .vbool false), ("max_tokens", .vnum "512"),
      ("merge_peers", .vbool true)]) ]

/-! ## The conversion job model (backend/services/converter.py) -/

/-- ConversionStatus enum from converter.py. -/
inductive ConversionStatus where
  | pending
  | processing
  | completed
  | failed
deriving Repr, DecidableEq, Inhabited

/-- Engine conversion result, as far as _run_conversion inspects it:
result.status.name and result.errors (already stringified). -/
structure EngineResult where
  statusName : String
  errors : List String
deriving Repr, Inhabited, DecidableEq

/-- The summary dict assigned to job.result on completion. -/
structure ResultSummary where
  markdownPreview : String
  formatsAvailable : List String
  pageCount : Nat
  imagesCount : Nat
  tablesCount : Nat
  chunksCount : Nat
  warnings : List String
deriving Repr, Inhabited

/-- A ConversionJob: the fields set by ConversionJob.__init__ and mutated
by _run_conversion.  Timestamps are abstract Nat ticks; confidence is an
abstract optional score. -/
structure Job where
  id : String
  inputPath : String
  originalFilename : String
  settings : List (String × PyVal)
  status : ConversionStatus
  progress : Nat
  message : String
  result : Option ResultSummary
  error : Option String
  confidence : Option Int
  outputPaths : List (String × String)
  createdAt : Nat
  completedAt : Option Nat
  extractedImages : List String
  extractedTables : List String
  chunks : List String
  pageCount : Nat
deriving Repr, Inhabited

/-- ConversionJob.__init__: a fresh job is pending with zero progress,
no error, no outputs and no completion timestamp; an absent or empty
(falsy) settings argument falls back to the defaults. -/
def ConversionJob_init (jobId inputPath origName : String)
    (settings : Option (List (String × PyVal))) (now : Nat) : Job :=
  { id := jobId, inputPath := inputPath, originalFilename := origName,
    settings := match settings with
      | some s => if s.isEmpty then DEFAULT_CONVERSION_SETTINGS else s
      | none => DEFAULT_CONVERSION_SETTINGS,
    status := .pending, progress := 0, message := "Queued for processing",
    result := none, error := none, confidence := none, outputPaths := [],
    createdAt := now, completedAt := none,
    extractedImages := [], extractedTables := [], chunks := [], pageCount := 0 }

/-- Python truthiness of the modelled values. -/
def pyTruthy : PyVal → Bool
  | .vnone => false
  | .vbool b => b
  | .vnum lit => !(lit == "0" || lit == "0.0")
  | .vstr s => !(s == "")
  | .vdict d => !d.isEmpty

/-- str() of a modelled scalar, for interpolation into messages. -/
def pyToStr : PyVal → String
  | .vnone => "None"
  | .vbool true => "True"
  | .vbool false => "False"
  | .vnum lit => lit
  | .vstr s => s
  | .vdict _ => "dict"

/-- settings.get(k1, \x7b\x7d).get(k2, dflt), as used throughout
_run_conversion (the outer value is a dict in every reachable state). -/
def pyGet2 (settings : List (String × PyVal)) (k1 k2 : String) (dflt : PyVal) : PyVal :=
  match lookupKey settings k1 with
  | some (.vdict d) => (lookupKey d k2).getD dflt
  | _ => dflt

/-- Prefix test on character lists. -/
def isPrefixChars : List Char → List Char → Bool
  | [], _ => true
  | _ :: _, [] => false
  | c :: cs, d :: ds => (c == d) && isPrefixChars cs ds

/-- Containment test on character lists (needle, hay). -/
def containsChars (needle : List Char) : List Char → Bool
  | [] => needle.isEmpty
  | c :: cs => isPrefixChars needle (c :: cs) || containsChars needle cs

/-- Character-wise lowering of a string's characters. -/
def lowerChars : List Char → List Char
  | [] => []
  | c :: cs => c.toLower :: lowerChars cs

/-- Python "needle.lower() in hay.lower()". -/
def containsLower (hay needle : String) : Bool :=
  containsChars (lowerChars needle.data) (lowerChars hay.data)

/-- The curated ocr_error_indicators list in _run_conversion. -/
def ocr_error_indicators : List String :=
  ["meta tensor", "EasyOCR", "tesseract", "ocrmac", "rapidocr",
   "OCR", "OcrOptions", "No module named", "cannot import",
   "CUDA", "cuda", "GPU", "gpu"]

/-- is_ocr_error = any(indicator.lower() in error_str.lower() for
indicator in ocr_error_indicators). -/
def is_ocr_error (errStr : String) : Bool :=
  ocr_error_indicators.any (fun ind => containsLower errStr ind)

/-- The fallback settings snapshot built by the degraded-mode retry:
job.settings.copy() with a copied ocr sub-dict whose enabled flag is set
to False (value semantics; the heap model below covers the aliasing). -/
def fallback_settings (settings : List (String × PyVal)) : List (String × PyVal) :=
  let ocr := match lookupKey settings "ocr" with
    | some (.vdict d) => d
    | _ => []
  setKey settings "ocr" (.vdict (setKey ocr "enabled" (.vbool false)))

/-- Oracle for the external effects performed by _run_conversion: the
engine (converter construction plus convert call, keyed by the settings
dict used), each document export, the extraction helpers (which swallow
their own exceptions in the source and always return), the chunker, and
the clock.  An Except.error models a raised Python exception carrying
str(e). -/
structure ConvEnv where
  convert : List (String × PyVal) → Except String EngineResult
  exportMarkdown : Except String String
  exportHtml : Except String String
  exportJson : Except String String
  exportText : Except String String
  exportDoctags : Except String String
  exportTokens : Except String String
  extractImages : List String
  extractTables : List String
  chunkerOutput : List String
  confidence : Option Int
  pageCount : Nat
  now : Nat

/-- Running state of one _run_conversion execution: the job plus the
observable histories used by the theorems (every status the job has held,
every message assigned, every engine invocation's settings, every export
step entered). -/
structure RState where
  job : Job
  statuses : List ConversionStatus
  messages : List String
  calls : List (List (String × PyVal))
  exports : List String
deriving Repr, Inhabited

def setStatus (s : RState) (st : ConversionStatus) : RState :=
  { s with job := { s.job with status := st }, statuses := s.statuses ++ [st] }

def setMessage (s : RState) (m : String) : RState :=
  { s with job := { s.job with message := m }, messages := s.messages ++ [m] }

def setProgress (s : RState) (p : Nat) : RState :=
  { s with job := { s.job with progress := p } }

def setJobError (s : RState) (e : String) : RState :=
  { s with job := { s.job with error := some e } }

def setOutputPath (s : RState) (key path : String) : RState :=
  { s with job := { s.job with outputPaths := setKey s.job.outputPaths key path } }

def addCall (s : RState) (c : List (String × PyVal)) : RState :=
  { s with calls := s.calls ++ [c] }

def addExport (s : RState) (k : String) : RState :=
  { s with exports := s.exports ++ [k] }

/-- Path.stem of a filename. -/
def pathStem (name : String) : String :=
  match name.splitOn "." with
  | [] => name
  | [_] => name
  | parts => String.intercalate "." parts.dropLast

/-- OUTPUT_FOLDER / job.id. -/
def outputBase (j : Job) : String := "outputs/" ++ j.id

/-- f-string rendering of result.errors appended to job.error. -/
def reprStrList (l : List String) : String :=
  "[" ++ String.intercalate ", " l ++ "]"

/-- Whether a modelled fallible step returned normally. -/
def exOk {ε α : Type} : Except ε α → Bool
  | .ok _ => true
  | .error _ => false

def setPathsVal (s : RState) (paths : List (String × String)) : RState :=
  { s with job := { s.job with outputPaths := paths } }

def setImagesVal (s : RState) (v : List String) : RState :=
  { s with job := { s.job with extractedImages := v } }

def setTablesVal (s : RState) (v : List String) : RState :=
  { s with job := { s.job with extractedTables := v } }

def setChunksVal (s : RState) (v : List String) : RState :=
  { s with job := { s.job with chunks := v } }

def setConfPage (s : RState) (c : Option Int) (p : Nat) : RState :=
  { s with job := { s.job with confidence := c, pageCount := p } }

def setResultVal (s : RState) (r : ResultSummary) : RState :=
  { s with job := { s.job with result := some r } }

/-- One guarded export step (the html/json/text/doctags/document_tokens
exports each sit in their own try/except: on success the artifact path is
recorded, on an exception the failure is logged and skipped without
touching the rest of the run). -/
def tryExportStep (s : RState) (key path : String) (res : Except String String) : RState :=
  let s1 := addExport s key
  setPathsVal s1
    (if exOk res then setKey s1.job.outputPaths key path else s1.job.outputPaths)

/-- job.error text on the engine-reported-failure branch. -/
def failStatusError (r : EngineResult) : String :=
  let base := "Conversion failed with status: " ++ r.statusName
  if r.errors.isEmpty then base else base ++ " - " ++ reprStrList r.errors

/-- Lines 586-616 of _run_conversion on the success/partial-success
branch, up to and including entering the (unguarded) markdown export:
confidence and page count, extraction of images/tables when enabled,
progress and message updates. -/
def materializePrep (env : ConvEnv) (s0 : RState) : RState :=
  let s := setProgress s0 50
  let s := setMessage s "Processing document content..."
  let s := setConfPage s env.confidence env.pageCount
  let s := setProgress s 60
  let s := setMessage s "Extracting images and tables..."
  let s := setImagesVal s
    (if pyTruthy (pyGet2 s.job.settings "images" "extract" (.vbool true))
      then env.extractImages else s.job.extractedImages)
  let s := setTablesVal s
    (if pyTruthy (pyGet2 s.job.settings "tables" "enabled" (.vbool true))
      then env.extractTables else s.job.extractedTables)
  let s := setProgress s 70
  let s := setMessage s "Generating output formats..."
  addExport s "markdown"

/-- Lines 619-706: the markdown path is recorded, the five guarded
exports each run fail-independently, chunks are generated when enabled,
and the job is completed with progress 100 and a summary. -/
def materializeExports (env : ConvEnv) (s0 : RState) (result : EngineResult)
    (mdContent : String) : RState :=
  let base := outputBase s0.job
  let stem := pathStem s0.job.originalFilename
  let s := setOutputPath s0 "markdown" (base ++ "/" ++ stem ++ ".md")
  let s := setProgress s 75
  let s := tryExportStep s "html" (base ++ "/" ++ stem ++ ".html") env.exportHtml
  let s := setProgress s 80
  let s := tryExportStep s "json" (base ++ "/" ++ stem ++ ".json") env.exportJson
  let s := setProgress s 85
  let s := tryExportStep s "text" (base ++ "/" ++ stem ++ ".txt") env.exportText
  let s := tryExportStep s "doctags" (base ++ "/" ++ stem ++ ".doctags") env.exportDoctags
  let s := tryExportStep s "document_tokens" (base ++ "/" ++ stem ++ ".tokens.json")
    env.exportTokens
  let s := setProgress s 90
  let s := setMessage s "Generating chunks for RAG..."
  let chunks := if pyTruthy (pyGet2 s.job.settings "chunking" "enabled" (.vbool false))
    then env.chunkerOutput else []
  let s := setChunksVal s chunks
  let s := setPathsVal s
    (if !chunks.isEmpty
      then setKey s.job.outputPaths "chunks" (base ++ "/" ++ stem ++ ".chunks.json")
      else s.job.outputPaths)
  let s := setProgress s 100
  let s := setStatus s .completed
  let s := setMessage s
    (if result.statusName == "SUCCESS" then "Conversion completed successfully"
      else "Conversion completed with some warnings")
  let summary : ResultSummary :=
    { markdownPreview := mdContent.take 5000,
      formatsAvailable := s.job.outputPaths.map Prod.fst,
      pageCount := s.job.pageCount,
      imagesCount := s.job.extractedImages.length,
      tablesCount := s.job.extractedTables.length,
      chunksCount := s.job.chunks.length,
      warnings := result.errors }
  setResultVal s summary

/-- Lines 708-713: the failed terminal state when the engine result's
status is neither SUCCESS nor PARTIAL_SUCCESS (the progress-50 update and
its message at lines 586-587 precede the status check). -/
def engineFailState (s0 : RState) (result : EngineResult) : RState :=
  let s := setProgress s0 50
  let s := setMessage s "Processing document content..."
  let s := setStatus s .failed
  let s := setJobError s ("Conversion failed with status: " ++ result.statusName)
  let s := setMessage s ("Conversion failed with status: " ++ result.statusName)
  setJobError s (failStatusError result)

/-- Lines 586-713 of _run_conversion: handling of a returned engine
result — materialization on success/partial success (with the markdown
export unguarded and the other five exports fail-independent), or the
failed terminal state on an engine-reported failure.  An Except.error
result is an exception escaping to the outer handler, carrying the state
at the raise point. -/
def materialize (env : ConvEnv) (s0 : RState) (result : EngineResult) :
    Except (RState × String) RState :=
  if result.statusName == "SUCCESS" || result.statusName == "PARTIAL_SUCCESS" then
    let s := materializePrep env s0
    match env.exportMarkdown with
    | .error e => .error (s, e)
    | .ok mdContent => .ok (materializeExports env s result mdContent)
  else .ok (engineFailState s0 result)

/-- The status message announcing the analysis, depending on whether OCR
is enabled in the job's settings. -/
def analysisMessage (settings : List (String × PyVal)) : String :=
  if pyTruthy (pyGet2 settings "ocr" "enabled" (.vbool true)) then
    "Analyzing document with OCR ("
      ++ pyToStr (pyGet2 settings "ocr" "backend" (.vstr "easyocr")) ++ ", "
      ++ pyToStr (pyGet2 settings "ocr" "language" (.vstr "en")) ++ ")..."
  else "Analyzing document structure..."

/-- Lines 522-546 of _run_conversion before the engine is first invoked:
status to processing, progress/message updates, and the record of the
first engine invocation with the job's own settings. -/
def analysisPhase (s0 : RState) : RState :=
  let s := setStatus s0 .processing
  let s := setProgress s 10
  let s := setMessage s "Starting document conversion..."
  let s := setProgress s 20
  let s := setMessage s (analysisMessage s.job.settings)
  let s := setProgress s 30
  addCall s s.job.settings

/-- Lines 561-573: the state updates of the degraded-mode retry before
the second engine invocation. -/
def retryPrep (s0 : RState) : RState :=
  let s := setMessage s0 "OCR failed, retrying without OCR..."
  let s := setProgress s 25
  let s := setProgress s 30
  addCall s (fallback_settings s.job.settings)

/-- The try-block of _run_conversion (lines 522-713): mark the job
processing, announce the analysis, invoke the engine with the job's
settings, on an OCR/accelerator-flavoured exception retry once with OCR
forced off in a derived snapshot, and hand any returned engine result to
materialize.  An Except.error is an exception escaping to the outer
handler, carrying the state at the raise point. -/
def tryPhase (env : ConvEnv) (s0 : RState) : Except (RState × String) RState :=
  let s := analysisPhase s0
  match env.convert s.job.settings with
  | .ok result => materialize env s result
  | .error errStr =>
    if is_ocr_error errStr then
      let s := retryPrep s
      match env.convert (fallback_settings s.job.settings) with
      | .ok result =>
          let s := setMessage s "Converted without OCR (OCR initialization failed)"
          materialize env s result
      | .error fallbackErr => .error (s, fallbackErr)
    else .error (s, errStr)

/-- Observable outcome of one _run_conversion run. -/
structure RunResult where
  job : Job
  statusHistory : List ConversionStatus
  messageHistory : List String
  convertCalls : List (List (String × PyVal))
  exportsAttempted : List String
  callbackRuns : List Job
deriving Repr, Inhabited

def initState (j0 : Job) : RState :=
  { job := j0, statuses := [j0.status], messages := [j0.message], calls := [], exports := [] }

/-- The except-handler of _run_conversion (lines 715-718): mark the job
failed and record str(e) as its error and failure message. -/
def handlerState (p : RState × String) : RState :=
  setMessage (setJobError (setStatus p.1 .failed) p.2) ("Conversion failed: " ++ p.2)

/-- The job state after try-body and except-handler, before the finally
block. -/
def finalState (env : ConvEnv) (j0 : Job) : RState :=
  match tryPhase env (initState j0) with
  | .ok s => s
  | .error p => handlerState p

/-- _run_conversion(job, on_complete): the try-body, the except handler
(mark failed, record str(e)), and the finally block (set completed_at,
then invoke on_complete exactly once when supplied). -/
def run_conversion (env : ConvEnv) (j0 : Job) (hasCallback : Bool) : RunResult :=
  let sFin := finalState env j0
  let sFin := { sFin with job := { sFin.job with completedAt := some env.now } }
  { job := sFin.job, statusHistory := sFin.statuses, messageHistory := sFin.messages,
    convertCalls := sFin.calls, exportsAttempted := sFin.exports,
    callbackRuns := if hasCallback then [sFin.job] else [] }

/-! ## Concrete oracles for counterexamples and witnesses -/

/-- A benign environment: the engine succeeds and every export works. -/
def envAllOk : ConvEnv :=
  { convert := fun _ => .ok { statusName := "SUCCESS", errors := [] },
    exportMarkdown := .ok "# heading", exportHtml := .ok "<h1>", exportJson := .ok "{}",
    exportText := .ok "heading", exportDoctags := .ok "<doc>", exportTokens := .ok "[]",
    extractImages := [], extractTables := [], chunkerOutput := [],
    confidence := none, pageCount := 1, now := 7 }

/-- A job created by ConversionJob_init with default settings. -/
def jobW : Job := ConversionJob_init "job-1" "/uploads/doc.pdf" "doc.pdf" none 0

/-- Engine raising an exception whose str() is empty. -/
def envEmptyMsg : ConvEnv := { envAllOk with convert := fun _ => .error "" }

/-- Engine raising a generic (non-OCR) exception. -/
def envDiskFull : ConvEnv := { envAllOk with convert := fun _ => .error "disk full" }

/-- Engine succeeds but the markdown export raises; the html export
would succeed. -/
def envMdBoom : ConvEnv := { envAllOk with exportMarkdown := .error "boom" }

/-- Engine succeeds, markdown export works, html export raises. -/
def envHtmlBoom : ConvEnv := { envAllOk with exportHtml := .error "html boom" }

/-- All exception messages this environment can produce are non-empty:
the premise under which a failed job's error is non-empty. -/
def envErrorsNonEmpty (env : ConvEnv) : Prop :=
  (∀ st m, env.convert st = Except.error m → m ≠ "")
  ∧ (∀ m, env.exportMarkdown = Except.error m → m ≠ "")

/-- An engine result reporting outright failure. -/
def resFail : EngineResult := { statusName := "FAILURE", errors := [] }

/-- The engine returns a FAILURE-status result while the markdown export
is primed to raise an exception whose message is empty (that export is
never consulted on this path): the engine-status failure branch must
produce a non-empty error entirely on its own. -/
def envStatusFail : ConvEnv :=
  { envAllOk with convert := fun _ => .ok resFail, exportMarkdown := .error "" }

/-! ## Claim C5: the degraded-mode OCR retry -/

/-- The state carried by a try-phase result, whether returned or raised. -/
def exceptState : Except (RState × String) RState → RState
  | .ok s => s
  | .error p => p.1

/-- An engine that raises a CUDA-flavoured exception when OCR is enabled
in the supplied settings, and succeeds otherwise — the spec's own test
scenario for the degraded-mode retry. -/
def cudaConvert (s : List (String × PyVal)) : Except String EngineResult :=
  if pyTruthy (pyGet2 s "ocr" "enabled" (.vbool true)) then .error "CUDA error: meta tensor"
  else .ok { statusName := "SUCCESS", errors := [] }

def envCuda : ConvEnv := { envAllOk with convert := cudaConvert }

/-! ## Claim C2: the bounded worker pool (_worker_loop) -/

/-- ConverterService._max_concurrent_jobs. -/
def max_concurrent_jobs : Nat := 2

/-- The dispatcher's state: the FIFO queue length (ConverterService's
_job_queue) and the active_threads list, one Bool per launched conversion
thread, true while the thread is alive. -/
structure PoolState where
  queued : Nat
  active : List Bool
deriving Repr, DecidableEq

/-- Number of live threads in a tracked list. -/
def aliveCount : List Bool → Nat
  | [] => 0
  | true :: rest => aliveCount rest + 1
  | false :: rest => aliveCount rest

/-- Events of the worker system: start_conversion enqueues a job; one
iteration of the _worker_loop body prunes dead threads and, when the live
count is below _max_concurrent_jobs and a job is queued, pops exactly one
job and launches it on exactly one new thread; and a conversion thread
finishing its single job (its _run_conversion returning) makes that
thread dead. -/
inductive PoolEvent where
  | submit
  | iterate
  | finish (i : Nat)
deriving Repr, DecidableEq

/-- One step of the system; the iterate case is the _worker_loop body:
active_threads = [t for t in active_threads if t.is_alive()], then if
len(active_threads) < _max_concurrent_jobs and the queue yields a job,
start one thread for it and append it to active_threads. -/
def poolStep : PoolState → PoolEvent → PoolState
  | s, .submit => { s with queued := s.queued + 1 }
  | s, .iterate =>
      let act := s.active.filter (fun b => b)
      if act.length < max_concurrent_jobs ∧ 0 < s.queued then
        { queued := s.queued - 1, active := act ++ [true] }
      else { s with active := act }
  | s, .finish i => { s with active := s.active.set i false }

/-- The state reached from an idle service by a sequence of events. -/
def poolRun (events : List PoolEvent) : PoolState :=
  events.foldl poolStep { queued := 0, active := [] }

/-! ## Claim C8: create_job and the caller-supplied identifier -/

/-- Python call binding against a function's positional parameter list:
a TypeError arises when there are more positional arguments than
parameters, when a keyword argument names no parameter, when a keyword
repeats a positionally-bound parameter, or when a required parameter
receives no value. -/
def bindCall (params : List String) (numDefaults numPositional : Nat)
    (kwargs : List String) : Except String Unit :=
  if params.length < numPositional then
    .error "TypeError: too many positional arguments"
  else match kwargs.find? (fun k => !(params.contains k)) with
    | some k => .error ("TypeError: got an unexpected keyword argument " ++ k)
    | none =>
      if kwargs.any (fun k => (params.take numPositional).contains k) then
        .error "TypeError: got multiple values for argument"
      else if ((params.take (params.length - numDefaults)).drop numPositional).any
          (fun p => !(kwargs.contains p)) then
        .error "TypeError: missing required positional argument"
      else .ok ()

/-- ConverterService.create_job's parameters after the bound self
(converter.py line 303): input_path, original_filename, settings — and
only settings has a default. -/
def create_job_params : List String := ["input_path", "original_filename", "settings"]

def create_job_num_defaults : Nat := 1

/-! ## Claim C9: settings snapshots under Python reference semantics -/

instance {ε α : Type} [DecidableEq ε] [DecidableEq α] : DecidableEq (Except ε α) := fun x y =>
  match x, y with
  | .ok a, .ok b =>
    if h : a = b then isTrue (by rw [h]) else isFalse (fun hh => h (Except.ok.inj hh))
  | .error a, .error b =>
    if h : a = b then isTrue (by rw [h]) else isFalse (fun hh => h (Except.error.inj hh))
  | .ok _, .error _ => isFalse (fun hh => Except.noConfusion hh)
  | .error _, .ok _ => isFalse (fun hh => Except.noConfusion hh)

/-- A Python value in the heap model: scalars are immediate, every dict
is a reference into the store. -/
inductive HVal where
  | hnone
  | hbool (b : Bool)
  | hnum (lit : String)
  | hstr (s : String)
  | href (addr : Nat)
deriving Repr, DecidableEq

/-- The store of dictionary objects, by address. -/
structure Heap where
  objs : List (Nat × List (String × HVal))
  next : Nat
deriving Repr

def heapGetObj (h : Heap) (a : Nat) : List (String × HVal) :=
  match h.objs.find? (fun p => p.1 == a) with
  | some p => p.2
  | none => []

def heapSetObj (h : Heap) (a : Nat) (d : List (String × HVal)) : Heap :=
  { h with objs := h.objs.map (fun p => if p.1 == a then (a, d) else p) }

/-- d.copy(): a new dict object with the same entry list — nested dict
references are shared between the copy and the original, not duplicated. -/
def heapShallowCopy (h : Heap) (a : Nat) : Heap × Nat :=
  ({ objs := h.objs ++ [(h.next, heapGetObj h a)], next := h.next + 1 }, h.next)

def heapAlloc (h : Heap) (d : List (String × HVal)) : Heap × Nat :=
  ({ objs := h.objs ++ [(h.next, d)], next := h.next + 1 }, h.next)

/-- d[k] = v on the dict object at address a. -/
def heapSetKey (h : Heap) (a : Nat) (k : String) (v : HVal) : Heap :=
  heapSetObj h a (setKey (heapGetObj h a) k v)

def heapLookup (h : Heap) (a : Nat) (k : String) : Option HVal :=
  lookupKey (heapGetObj h a) k

/-- Lookup through one level of reference: the value of
settings[k1][k2]. -/
def heapLookup2 (h : Heap) (a : Nat) (k1 k2 : String) : Option HVal :=
  match heapLookup h a k1 with
  | some (.href b) => heapLookup h b k2
  | _ => none

/-- deep_merge of routes/convert.py under reference semantics: it mutates
the base dict object in place; for a key whose value is a dict in both
base and override it recurses into the base's nested object (without
copying it), and otherwise assigns the override's value, aliasing any
override sub-object into base.  Fuel bounds the recursion depth; every
terminating Python execution fits some fuel. -/
def deep_merge_heap : Nat → Heap → Nat → List (String × HVal) → Heap
  | 0, h, _, _ => h
  | fuel + 1, h, base, entries =>
      entries.foldl (fun hh kv =>
        match heapLookup hh base kv.1, kv.2 with
        | some (.href ba), .href va => deep_merge_heap fuel hh ba (heapGetObj hh va)
        | _, _ => heapSetKey hh base kv.1 kv.2) h

/-- The fallback-settings construction of the degraded-mode retry under
reference semantics (converter.py lines 567-569): a shallow copy of
job.settings, whose ocr entry is replaced by a copy of the ocr sub-dict,
in which enabled is then set to False — the job's own objects are never
written to. -/
def fallbackHeap (h : Heap) (settingsAddr : Nat) : Heap × Nat :=
  let p1 := heapShallowCopy h settingsAddr
  match heapLookup p1.1 p1.2 "ocr" with
  | some (.href oa) =>
    let p2 := heapShallowCopy p1.1 oa
    let h3 := heapSetKey p2.1 p1.2 "ocr" (.href p2.2)
    (heapSetKey h3 p2.2 "enabled" (.hbool false), p1.2)
  | _ =>
    let p2 := heapAlloc p1.1 []
    let h3 := heapSetKey p2.1 p1.2 "ocr" (.href p2.2)
    (heapSetKey h3 p2.2 "enabled" (.hbool false), p1.2)

/-- The heap holding DEFAULT_CONVERSION_SETTINGS as module-level objects:
address 0 is the top-level dict, addresses 1-7 its nested per-concern
dicts. -/
def defaultHeap : Heap :=
  { objs := [
      (0, [("ocr", .href 1), ("tables", .href 2), ("images", .href 3),
           ("enrichment", .href 4), ("output", .href 5), ("performance", .href 6),
           ("chunking", .href 7)]),
      (1, [("enabled", .hbool true), ("language", .hstr "en"),
           ("force_full_page_ocr", .hbool false), ("backend", .hstr "ocrmac"),
           ("use_gpu", .hbool false), ("confidence_threshold", .hnum "0.5"),
           ("bitmap_area_threshold", .hnum "0.05")]),
      (2, [("enabled", .hbool true), ("structure_extraction", .hbool true),
           ("mode", .hstr "accurate"), ("do_cell_matching", .hbool true)]),
      (3, [("extract", .hbool true), ("classify", .hbool true),
           ("generate_page_images", .hbool false), ("generate_picture_images", .hbool true),
           ("generate_table_images", .hbool true), ("images_scale", .hnum "1.0")]),
      (4, [("code_enrichment", .hbool false), ("formula_enrichment", .hbool false),
           ("picture_classification", .hbool false), ("picture_description", .hbool false)]),
      (5, [("default_format", .hstr "markdown")]),
      (6, [("device", .hstr "auto"), ("num_threads", .hnum "4"),
           ("document_timeout", .hnone)]),
      (7, [("enabled", .hbool false), ("max_tokens", .hnum "512"),
           ("merge_peers", .hbool true)]) ],
    next := 8 }

/-- Request 1 (POST /convert with no settings file and no overrides):
load_user_settings returns DEFAULT_CONVERSION_SETTINGS.copy(), which
becomes the first job's settings snapshot at address 8. -/
def heapAfterReq1 : Heap × Nat := heapShallowCopy defaultHeap 0

/-- Request 2 (POST /convert with override settings
\x7b"ocr": \x7b"enabled": false\x7d\x7d): DEFAULT_CONVERSION_SETTINGS.copy()
again (address 9), the parsed override objects (addresses 10 and 11), and
the deep merge of the override into the new copy. -/
def heapAfterReq2 : Heap :=
  let p := heapShallowCopy heapAfterReq1.1 0
  let q1 := heapAlloc p.1 [("enabled", .hbool false)]
  let q2 := heapAlloc q1.1 [("ocr", .href q1.2)]
  deep_merge_heap 10 q2.1 p.2 (heapGetObj q2.1 q2.2)

/-! ## Claim C10: output retrieval -/

/-- ConverterService.get_job: a pure lookup in the job registry. -/
def get_job (jobs : List (String × Job)) (jobId : String) : Option Job :=
  lookupKey jobs jobId

/-- ConverterService.get_output_content: None unless the job exists, its
status is completed, the format key was recorded with a truthy path, and
the file exists (the filesystem is an abstract map from path to
content). -/
def get_output_content (jobs : List (String × Job)) (fs : String → Option String)
    (jobId formatType : String) : Option String :=
  match get_job jobs jobId with
  | none => none
  | some job =>
    if job.status ≠ ConversionStatus.completed then none
    else match lookupKey job.outputPaths formatType with
      | none => none
      | some outputPath =>
        if outputPath = "" then none
        else fs outputPath

/-- ConverterService.get_output_path: same guards, returning the path
only when the file exists. -/
def get_output_path (jobs : List (String × Job)) (fs : String → Option String)
    (jobId formatType : String) : Option String :=
  match get_job jobs jobId with
  | none => none
  | some job =>
    if job.status ≠ ConversionStatus.completed then none
    else match lookupKey job.outputPaths formatType with
      | none => none
      | some outputPath =>
        if outputPath = "" then none
        else match fs outputPath with
          | some _ => some outputPath
          | none => none

/-- A failed job that nevertheless has an artifact recorded and present
on disk. -/
def failedJobX : Job :=
  { jobW with
    status := ConversionStatus.failed,
    outputPaths := [("markdown", "outputs/job-1/doc.md")] }

/-- A filesystem on which that artifact exists. -/
def fsX : String → Option String :=
  fun p => if p = "outputs/job-1/doc.md" then some "# recovered" else none


theorem lookupKey_setKey_self {α : Type} (d : List (String × α)) (k : String) (v : α) :
    lookupKey (setKey d k v) k = some v := by
  induction d with
  | nil => simp [setKey, lookupKey]
  | cons p rest ih =>
    obtain ⟨k0, w⟩ := p
    by_cases hk : k0 = k
    · simp [setKey, hk, lookupKey]
    · simp [setKey, hk, lookupKey, ih]

theorem lookupKey_setKey_other {α : Type} (d : List (String × α)) (k0 k : String) (v : α)
    (hne : k ≠ k0) : lookupKey (setKey d k0 v) k = lookupKey d k := by
  induction d with
  | nil => simp [setKey, lookupKey, Ne.symm hne]
  | cons p rest ih =>
    obtain ⟨k1, w⟩ := p
    by_cases hk : k1 = k0
    · subst hk
      simp [setKey, lookupKey, Ne.symm hne]
    · by_cases hk1 : k1 = k
      · subst hk1
        simp [setKey, hk, lookupKey]
      · simp [setKey, hk, lookupKey, hk1, ih]

theorem setKey_eq_of_lookup {α : Type} (d : List (String × α)) (k : String) (v : α)
    (h : lookupKey d k = some v) : setKey d k v = d := by
  induction d with
  | nil => simp [lookupKey] at h
  | cons p rest ih =>
    obtain ⟨k0, w⟩ := p
    by_cases hk : k0 = k
    · subst hk
      simp [lookupKey] at h
      simp [setKey, h]
    · simp [lookupKey, hk] at h
      simp [setKey, hk, ih h]

theorem distinctKeys_setKey (d : List (String × PyVal)) (k : String) (v : PyVal)
    (h : distinctKeys d = true) : distinctKeys (setKey d k v) = true := by
  induction d with
  | nil => simp [setKey, distinctKeys, lookupKey]
  | cons p rest ih =>
    obtain ⟨k0, w⟩ := p
    simp [distinctKeys] at h
    by_cases hk : k0 = k
    · subst hk
      simp [setKey, distinctKeys, h.1, h.2]
    · have h1 : lookupKey (setKey rest k v) k0 = lookupKey rest k0 :=
        lookupKey_setKey_other rest k k0 v hk
      simp [setKey, hk, distinctKeys, h1, h.1, ih h.2]

theorem deep_merge_cons (base : List (String × PyVal)) (k0 : String) (v0 : PyVal)
    (rest : List (String × PyVal)) :
    deep_merge base ((k0, v0) :: rest)
      = deep_merge (setKey base k0 (stepVal (lookupKey base k0) v0)) rest := by
  cases hb : lookupKey base k0 with
  | none => cases v0 <;> simp [deep_merge, hb, stepVal]
  | some w => cases w <;> cases v0 <;> simp [deep_merge, hb, stepVal]

theorem merge_settings_cons (current : List (String × PyVal)) (k0 : String) (v0 : PyVal)
    (rest : List (String × PyVal)) :
    merge_settings current ((k0, v0) :: rest)
      = merge_settings (setKey current k0 (stepValM (lookupKey current k0) v0)) rest := by
  cases hb : lookupKey current k0 with
  | none => cases v0 <;> simp [merge_settings, hb, stepValM]
  | some w => cases w <;> cases v0 <;> simp [merge_settings, hb, stepValM]

theorem wfEntries_distinct : ∀ (d : List (String × PyVal)),
    wfEntries d = true → distinctKeys d = true := by
  intro d
  induction d with
  | nil => simp [wfEntries, distinctKeys]
  | cons p rest ih =>
    obtain ⟨k, v⟩ := p
    simp [wfEntries, distinctKeys]
    intro h1 _ h3
    exact ⟨h1, ih h3⟩

theorem wfEntries_lookup : ∀ (d : List (String × PyVal)) (k : String) (v : PyVal),
    wfEntries d = true → lookupKey d k = some v → wfVal v = true := by
  intro d
  induction d with
  | nil => intro k v _ h; simp [lookupKey] at h
  | cons p rest ih =>
    obtain ⟨k0, w⟩ := p
    intro k v hwf hl
    simp [wfEntries] at hwf
    by_cases hk : k0 = k
    · simp [lookupKey, hk] at hl
      exact hl ▸ hwf.1.2
    · simp [lookupKey, hk] at hl
      exact ih k v hwf.2 hl

theorem lookupKey_deep_merge : ∀ (upd base : List (String × PyVal)) (k : String),
    distinctKeys upd = true →
    lookupKey (deep_merge base upd) k = mergedAt (lookupKey base k) (lookupKey upd k) := by
  intro upd
  induction upd with
  | nil =>
    intro base k _
    simp [deep_merge, lookupKey, mergedAt]
  | cons p rest ih =>
    obtain ⟨k0, v0⟩ := p
    intro base k hd
    simp only [distinctKeys, Bool.and_eq_true, Option.isNone_iff_eq_none] at hd
    rw [deep_merge_cons, ih _ _ hd.2]
    by_cases hk : k = k0
    · subst hk
      rw [lookupKey_setKey_self]
      simp [lookupKey, hd.1, mergedAt]
    · rw [lookupKey_setKey_other _ _ _ _ hk]
      simp [lookupKey, Ne.symm hk]

theorem deep_merge_eq_self : ∀ (base upd : List (String × PyVal)),
    (∀ k v, lookupKey upd k = some v → lookupKey base k = some v ∧ wfVal v = true) →
    distinctKeys upd = true → deep_merge base upd = base := by
  intro base upd
  induction base, upd using deep_merge.induct with
  | case1 base => intro _ _; simp [deep_merge]
  | case2 base key rest bsub vsub hb ih1 ih2 =>
    intro h hd
    simp only [distinctKeys, Bool.and_eq_true, Option.isNone_iff_eq_none] at hd
    have hkey := h key (.vdict vsub) (by simp [lookupKey])
    rw [hb] at hkey
    have hbv : bsub = vsub := PyVal.vdict.inj (Option.some.inj hkey.1)
    have hwfe : wfEntries vsub = true := by simpa [wfVal] using hkey.2
    have hself : deep_merge bsub vsub = bsub := by
      apply ih1
      · intro k v hl
        refine ⟨?_, wfEntries_lookup vsub k v hwfe hl⟩
        rw [hbv]
        exact hl
      · exact wfEntries_distinct vsub hwfe
    have hset : setKey base key (PyVal.vdict (deep_merge bsub vsub)) = base := by
      rw [hself]
      exact setKey_eq_of_lookup base key (.vdict bsub) hb
    rw [deep_merge_cons, hb]
    simp only [stepVal]
    rw [hset] at ih2 ⊢
    apply ih2
    · intro k v hl
      by_cases hk : key = k
      · subst hk
        rw [hd.1] at hl
        simp at hl
      · refine h k v ?_
        simp only [lookupKey, if_neg hk]
        exact hl
    · exact hd.2
  | case3 base key value rest hnb ih =>
    intro h hd
    simp only [distinctKeys, Bool.and_eq_true, Option.isNone_iff_eq_none] at hd
    have hkey := h key value (by simp [lookupKey])
    have hstep : stepVal (lookupKey base key) value = value := by
      rw [hkey.1]
      cases value with
      | vdict vsub => exact (hnb vsub vsub hkey.1 rfl).elim
      | vnone => simp [stepVal]
      | vbool b => simp [stepVal]
      | vnum s => simp [stepVal]
      | vstr s => simp [stepVal]
    have hset : setKey base key value = base := setKey_eq_of_lookup base key value hkey.1
    rw [deep_merge_cons, hstep]
    rw [hset] at ih ⊢
    apply ih
    · intro k v hl
      by_cases hk : key = k
      · subst hk
        rw [hd.1] at hl
        simp at hl
      · refine h k v ?_
        simp only [lookupKey, if_neg hk]
        exact hl
    · exact hd.2

theorem merge_settings_eq_deep_merge : ∀ (base upd : List (String × PyVal)),
    merge_settings base upd = deep_merge base upd := by
  intro base upd
  induction base, upd using merge_settings.induct with
  | case1 base => simp [merge_settings, deep_merge]
  | case2 base key rest csub vsub hb ih1 ih2 =>
    rw [merge_settings_cons, deep_merge_cons, hb]
    simp only [stepValM, stepVal]
    rw [← ih1]
    exact ih2
  | case3 base key value rest cur hcur hnot ih =>
    have hstep : stepValM (some cur) value = value ∧ stepVal (some cur) value = value := by
      cases cur <;> cases value <;>
        first
        | exact (hnot _ _ rfl rfl).elim
        | simp [stepValM, stepVal]
    rw [merge_settings_cons, deep_merge_cons, hcur, hstep.1, hstep.2]
    exact ih
  | case4 base key value rest hnone ih =>
    have h1 : stepValM none value = value := by cases value <;> simp [stepValM]
    have h2 : stepVal (none : Option PyVal) value = value := by cases value <;> simp [stepVal]
    rw [merge_settings_cons, deep_merge_cons, hnone, h1, h2]
    exact ih

/-- C7: the deep-merge used to resolve settings (deep_merge in
backend/routes/convert.py and merge_settings in backend/routes/settings.py
compute the same function, last conjunct): merging the empty mapping into
any base leaves it unchanged; merging an override equal to the current
value yields an unchanged result (for any dict Python can build, i.e. with
distinct keys throughout); and for every key, the value after the merge is
mergedAt of the two values before it — the merge recurses when both the
base value and the override value are nested mappings, and otherwise the
override value replaces the base value entirely (stepVal). -/
theorem claim_C7_deep_merge_spec (b d base upd : List (String × PyVal)) (k : String)
    (hdwf : wfEntries d = true) (hupd : distinctKeys upd = true) :
    deep_merge b [] = b
    ∧ deep_merge d d = d
    ∧ lookupKey (deep_merge base upd) k = mergedAt (lookupKey base k) (lookupKey upd k)
    ∧ merge_settings base upd = deep_merge base upd := by
  refine ⟨by simp [deep_merge], ?_, lookupKey_deep_merge upd base k hupd,
    merge_settings_eq_deep_merge base upd⟩
  apply deep_merge_eq_self
  · intro k v hl
    exact ⟨hl, wfEntries_lookup d k v hdwf hl⟩
  · exact wfEntries_distinct d hdwf

/-- Witness for C7 at concrete inputs: the default settings dict is
well-formed, a request override has distinct keys, and the properties
follow by applying the theorem there. -/
theorem claim_C7_deep_merge_spec_witness :
    wfEntries DEFAULT_CONVERSION_SETTINGS = true
    ∧ distinctKeys [("ocr", PyVal.vdict [("enabled", PyVal.vbool false)])] = true
    ∧ (deep_merge [("a", PyVal.vnum "1")] [] = [("a", PyVal.vnum "1")]
       ∧ deep_merge DEFAULT_CONVERSION_SETTINGS DEFAULT_CONVERSION_SETTINGS
           = DEFAULT_CONVERSION_SETTINGS
       ∧ lookupKey (deep_merge DEFAULT_CONVERSION_SETTINGS
             [("ocr", PyVal.vdict [("enabled", PyVal.vbool false)])]) "ocr"
           = mergedAt (lookupKey DEFAULT_CONVERSION_SETTINGS "ocr")
               (lookupKey [("ocr", PyVal.vdict [("enabled", PyVal.vbool false)])] "ocr")
       ∧ merge_settings DEFAULT_CONVERSION_SETTINGS
             [("ocr", PyVal.vdict [("enabled", PyVal.vbool false)])]
           = deep_merge DEFAULT_CONVERSION_SETTINGS
               [("ocr", PyVal.vdict [("enabled", PyVal.vbool false)])]) :=
  ⟨rfl, rfl,
    claim_C7_deep_merge_spec [("a", PyVal.vnum "1")] DEFAULT_CONVERSION_SETTINGS
      DEFAULT_CONVERSION_SETTINGS [("ocr", PyVal.vdict [("enabled", PyVal.vbool false)])]
      "ocr" rfl rfl⟩

/-! ## Projection lemmas for the run phases -/

theorem lookupKey_ite_setKey_other {α : Type} (c : Prop) [Decidable c]
    (d : List (String × α)) (k0 k : String) (v : α) (h : k ≠ k0) :
    lookupKey (if c then setKey d k0 v else d) k = lookupKey d k := by
  split <;> simp [lookupKey_setKey_other _ _ _ _ h]

theorem lookupKey_ite_setKey_self {α : Type} (c : Prop) [Decidable c]
    (d : List (String × α)) (k : String) (v : α) :
    (lookupKey (if c then setKey d k v else d) k).isSome
      = (if c then true else (lookupKey d k).isSome) := by
  split <;> simp [lookupKey_setKey_self]

theorem analysisPhase_spec (s0 : RState) :
    (analysisPhase s0).job.settings = s0.job.settings
    ∧ (analysisPhase s0).statuses = s0.statuses ++ [ConversionStatus.processing]
    ∧ (analysisPhase s0).messages = s0.messages ++ ["Starting document conversion...",
        analysisMessage s0.job.settings]
    ∧ (analysisPhase s0).calls = s0.calls ++ [s0.job.settings]
    ∧ (analysisPhase s0).exports = s0.exports
    ∧ (analysisPhase s0).job.status = ConversionStatus.processing
    ∧ (analysisPhase s0).job.error = s0.job.error
    ∧ (analysisPhase s0).job.outputPaths = s0.job.outputPaths
    ∧ (analysisPhase s0).job.originalFilename = s0.job.originalFilename
    ∧ (analysisPhase s0).job.id = s0.job.id := by
  simp [analysisPhase, setStatus, setMessage, setProgress, addCall]

theorem retryPrep_spec (s0 : RState) :
    (retryPrep s0).job.settings = s0.job.settings
    ∧ (retryPrep s0).statuses = s0.statuses
    ∧ (retryPrep s0).messages = s0.messages ++ ["OCR failed, retrying without OCR..."]
    ∧ (retryPrep s0).calls = s0.calls ++ [fallback_settings s0.job.settings]
    ∧ (retryPrep s0).exports = s0.exports
    ∧ (retryPrep s0).job.status = s0.job.status
    ∧ (retryPrep s0).job.error = s0.job.error
    ∧ (retryPrep s0).job.outputPaths = s0.job.outputPaths
    ∧ (retryPrep s0).job.originalFilename = s0.job.originalFilename
    ∧ (retryPrep s0).job.id = s0.job.id := by
  simp [retryPrep, setMessage, setProgress, addCall]

theorem materializePrep_spec (env : ConvEnv) (s0 : RState) :
    (materializePrep env s0).job.settings = s0.job.settings
    ∧ (materializePrep env s0).statuses = s0.statuses
    ∧ (materializePrep env s0).messages = s0.messages ++ ["Processing document content...",
        "Extracting images and tables...", "Generating output formats..."]
    ∧ (materializePrep env s0).calls = s0.calls
    ∧ (materializePrep env s0).exports = s0.exports ++ ["markdown"]
    ∧ (materializePrep env s0).job.status = s0.job.status
    ∧ (materializePrep env s0).job.error = s0.job.error
    ∧ (materializePrep env s0).job.outputPaths = s0.job.outputPaths
    ∧ (materializePrep env s0).job.originalFilename = s0.job.originalFilename
    ∧ (materializePrep env s0).job.id = s0.job.id := by
  simp [materializePrep, setProgress, setMessage, setConfPage, setImagesVal, setTablesVal,
    addExport]

theorem materializeExports_spec (env : ConvEnv) (s0 : RState) (r : EngineResult) (md : String) :
    (materializeExports env s0 r md).statuses = s0.statuses ++ [ConversionStatus.completed]
    ∧ (materializeExports env s0 r md).job.status = ConversionStatus.completed
    ∧ (materializeExports env s0 r md).job.progress = 100
    ∧ (materializeExports env s0 r md).job.error = s0.job.error
    ∧ (materializeExports env s0 r md).calls = s0.calls
    ∧ (materializeExports env s0 r md).exports = s0.exports ++ ["html", "json", "text",
        "doctags", "document_tokens"]
    ∧ (materializeExports env s0 r md).job.message = (if r.statusName == "SUCCESS"
        then "Conversion completed successfully" else "Conversion completed with some warnings")
    ∧ (materializeExports env s0 r md).messages = s0.messages
        ++ ["Generating chunks for RAG...",
            (if r.statusName == "SUCCESS" then "Conversion completed successfully"
              else "Conversion completed with some warnings")] := by
  simp [materializeExports, setOutputPath, setProgress, tryExportStep, addExport, setPathsVal,
    setMessage, setChunksVal, setStatus, setResultVal]

theorem engineFailState_spec (s0 : RState) (r : EngineResult) :
    (engineFailState s0 r).statuses = s0.statuses ++ [ConversionStatus.failed]
    ∧ (engineFailState s0 r).job.status = ConversionStatus.failed
    ∧ (engineFailState s0 r).job.error = some (failStatusError r)
    ∧ (engineFailState s0 r).job.message = "Conversion failed with status: " ++ r.statusName
    ∧ (engineFailState s0 r).messages = s0.messages ++ ["Processing document content...",
        "Conversion failed with status: " ++ r.statusName]
    ∧ (engineFailState s0 r).calls = s0.calls
    ∧ (engineFailState s0 r).exports = s0.exports := by
  simp [engineFailState, setProgress, setMessage, setStatus, setJobError]

theorem materializeExports_paths (env : ConvEnv) (s0 : RState) (r : EngineResult) (md : String)
    (h0 : s0.job.outputPaths = []) :
    (lookupKey (materializeExports env s0 r md).job.outputPaths "markdown").isSome = true
    ∧ (lookupKey (materializeExports env s0 r md).job.outputPaths "html").isSome
        = exOk env.exportHtml
    ∧ (lookupKey (materializeExports env s0 r md).job.outputPaths "json").isSome
        = exOk env.exportJson
    ∧ (lookupKey (materializeExports env s0 r md).job.outputPaths "text").isSome
        = exOk env.exportText
    ∧ (lookupKey (materializeExports env s0 r md).job.outputPaths "doctags").isSome
        = exOk env.exportDoctags
    ∧ (lookupKey (materializeExports env s0 r md).job.outputPaths "document_tokens").isSome
        = exOk env.exportTokens := by
  simp only [materializeExports, setOutputPath, setProgress, tryExportStep, addExport,
    setPathsVal, setMessage, setChunksVal, setStatus, setResultVal, h0]
  refine ⟨?_, ?_, ?_, ?_, ?_, ?_⟩ <;>
    simp [lookupKey_ite_setKey_other, lookupKey_ite_setKey_self, lookupKey_setKey_self,
      lookupKey_setKey_other, lookupKey]

theorem append_ne_empty_of_left (s t : String) (hs : s.data ≠ []) : s ++ t ≠ "" := by
  intro he
  apply hs
  have hd : (s ++ t).data = ([] : List Char) := by rw [he]
  rw [String.data_append] at hd
  exact (List.append_eq_nil.mp hd).1

theorem failStatusError_ne_empty (r : EngineResult) : failStatusError r ≠ "" := by
  simp only [failStatusError]
  split
  · exact append_ne_empty_of_left _ _ (by decide)
  · apply append_ne_empty_of_left
    rw [String.data_append]
    intro hd
    exact absurd (List.append_eq_nil.mp hd).2 (by decide)

/-- Every execution of the try-block either completes the job (progress
100), fails it on an engine-reported failure status (with a non-empty
error string), or raises an exception to the outer handler, whose message
originated in an engine invocation or the unguarded markdown export; the
job's status history extends by processing and then by at most one
terminal state. -/
theorem tryPhase_outcomes (env : ConvEnv) (s0 : RState) :
    (∃ s2, tryPhase env s0 = .ok s2
       ∧ s2.statuses = s0.statuses ++ [ConversionStatus.processing, ConversionStatus.completed]
       ∧ s2.job.status = ConversionStatus.completed
       ∧ s2.job.progress = 100
       ∧ s2.job.error = s0.job.error)
    ∨ (∃ s2 r, tryPhase env s0 = .ok s2
       ∧ s2.statuses = s0.statuses ++ [ConversionStatus.processing, ConversionStatus.failed]
       ∧ s2.job.status = ConversionStatus.failed
       ∧ s2.job.error = some (failStatusError r))
    ∨ (∃ s2 e, tryPhase env s0 = .error (s2, e)
       ∧ s2.statuses = s0.statuses ++ [ConversionStatus.processing]
       ∧ ((∃ st, env.convert st = Except.error e) ∨ env.exportMarkdown = Except.error e)) := by
  obtain ⟨hA1, hA2, hA3, hA4, hA5, hA6, hA7, hA8, hA9, hA10⟩ := analysisPhase_spec s0
  simp only [tryPhase]
  cases h1 : env.convert (analysisPhase s0).job.settings with
  | ok r =>
    simp only [materialize]
    cases hc : (r.statusName == "SUCCESS" || r.statusName == "PARTIAL_SUCCESS") with
    | true =>
      simp only [hc, if_true]
      obtain ⟨hP1, hP2, hP3, hP4, hP5, hP6, hP7, hP8, hP9, hP10⟩ :=
        materializePrep_spec env (analysisPhase s0)
      cases hmd : env.exportMarkdown with
      | ok md =>
        left
        obtain ⟨hE1, hE2, hE3, hE4, hE5, hE6, hE7, hE8⟩ :=
          materializeExports_spec env (materializePrep env (analysisPhase s0)) r md
        refine ⟨_, rfl, ?_, hE2, hE3, ?_⟩
        · rw [hE1, hP2, hA2]
          simp
        · rw [hE4, hP7, hA7]
      | error e =>
        right; right
        refine ⟨_, e, rfl, ?_, Or.inr rfl⟩
        rw [hP2, hA2]
    | false =>
      simp only [hc, Bool.false_eq_true, if_false]
      right; left
      obtain ⟨hF1, hF2, hF3, hF4, hF5, hF6, hF7⟩ := engineFailState_spec (analysisPhase s0) r
      refine ⟨_, r, rfl, ?_, hF2, hF3⟩
      rw [hF1, hA2]
      simp
  | error m =>
    by_cases hocr : is_ocr_error m = true
    · simp only [hocr, if_true]
      obtain ⟨hR1, hR2, hR3, hR4, hR5, hR6, hR7, hR8, hR9, hR10⟩ :=
        retryPrep_spec (analysisPhase s0)
      cases h2 : env.convert (fallback_settings (retryPrep (analysisPhase s0)).job.settings) with
      | ok r =>
        simp only [materialize]
        cases hc : (r.statusName == "SUCCESS" || r.statusName == "PARTIAL_SUCCESS") with
        | true =>
          simp only [hc, if_true]
          obtain ⟨hP1, hP2, hP3, hP4, hP5, hP6, hP7, hP8, hP9, hP10⟩ :=
            materializePrep_spec env
              (setMessage (retryPrep (analysisPhase s0))
                "Converted without OCR (OCR initialization failed)")
          cases hmd : env.exportMarkdown with
          | ok md =>
            left
            obtain ⟨hE1, hE2, hE3, hE4, hE5, hE6, hE7, hE8⟩ :=
              materializeExports_spec env
                (materializePrep env (setMessage (retryPrep (analysisPhase s0))
                  "Converted without OCR (OCR initialization failed)")) r md
            refine ⟨_, rfl, ?_, hE2, hE3, ?_⟩
            · rw [hE1, hP2]
              simp only [setMessage]
              rw [hR2, hA2]
              simp
            · rw [hE4, hP7]
              simp only [setMessage]
              rw [hR7, hA7]
          | error e =>
            right; right
            refine ⟨_, e, rfl, ?_, Or.inr rfl⟩
            rw [hP2]
            simp only [setMessage]
            rw [hR2, hA2]
        | false =>
          simp only [hc, Bool.false_eq_true, if_false]
          right; left
          obtain ⟨hF1, hF2, hF3, hF4, hF5, hF6, hF7⟩ :=
            engineFailState_spec (setMessage (retryPrep (analysisPhase s0))
              "Converted without OCR (OCR initialization failed)") r
          refine ⟨_, r, rfl, ?_, hF2, hF3⟩
          rw [hF1]
          simp only [setMessage]
          rw [hR2, hA2]
          simp
      | error e2 =>
        right; right
        refine ⟨_, e2, rfl, ?_, Or.inl ⟨_, h2⟩⟩
        rw [hR2, hA2]
    · simp only [hocr, if_false]
      right; right
      refine ⟨_, m, rfl, hA2, Or.inl ⟨_, h1⟩⟩

theorem finalState_eq_ok (env : ConvEnv) (j0 : Job) (s : RState)
    (h : tryPhase env (initState j0) = .ok s) : finalState env j0 = s := by
  simp [finalState, h]

theorem finalState_eq_error (env : ConvEnv) (j0 : Job) (p : RState × String)
    (h : tryPhase env (initState j0) = .error p) : finalState env j0 = handlerState p := by
  simp [finalState, h]

theorem handlerState_spec (p : RState × String) :
    (handlerState p).statuses = p.1.statuses ++ [ConversionStatus.failed]
    ∧ (handlerState p).job.status = ConversionStatus.failed
    ∧ (handlerState p).job.error = some p.2
    ∧ (handlerState p).calls = p.1.calls
    ∧ (handlerState p).exports = p.1.exports
    ∧ (handlerState p).messages = p.1.messages ++ ["Conversion failed: " ++ p.2]
    ∧ (handlerState p).job.message = "Conversion failed: " ++ p.2
    ∧ (handlerState p).job.outputPaths = p.1.job.outputPaths := by
  simp [handlerState, setMessage, setJobError, setStatus]

/-- The outcome of _run_conversion projects onto the final pre-finally
state in every observable component. -/
theorem run_conversion_proj (env : ConvEnv) (j0 : Job) (cb : Bool) :
    (run_conversion env j0 cb).statusHistory = (finalState env j0).statuses
    ∧ (run_conversion env j0 cb).messageHistory = (finalState env j0).messages
    ∧ (run_conversion env j0 cb).convertCalls = (finalState env j0).calls
    ∧ (run_conversion env j0 cb).exportsAttempted = (finalState env j0).exports
    ∧ (run_conversion env j0 cb).job.status = (finalState env j0).job.status
    ∧ (run_conversion env j0 cb).job.progress = (finalState env j0).job.progress
    ∧ (run_conversion env j0 cb).job.error = (finalState env j0).job.error
    ∧ (run_conversion env j0 cb).job.message = (finalState env j0).job.message
    ∧ (run_conversion env j0 cb).job.outputPaths = (finalState env j0).job.outputPaths := by
  simp [run_conversion]

theorem materialize_calls (env : ConvEnv) (s0 : RState) (r : EngineResult) :
    (exceptState (materialize env s0 r)).calls = s0.calls := by
  obtain ⟨hP1, hP2, hP3, hP4, hP5, hP6, hP7, hP8, hP9, hP10⟩ := materializePrep_spec env s0
  obtain ⟨hF1, hF2, hF3, hF4, hF5, hF6, hF7⟩ := engineFailState_spec s0 r
  simp only [materialize]
  cases hc : (r.statusName == "SUCCESS" || r.statusName == "PARTIAL_SUCCESS") with
  | true =>
    simp only [hc, if_true]
    cases hmd : env.exportMarkdown with
    | ok md =>
      obtain ⟨hE1, hE2, hE3, hE4, hE5, hE6, hE7, hE8⟩ :=
        materializeExports_spec env (materializePrep env s0) r md
      simp only [exceptState]
      rw [hE5, hP4]
    | error e =>
      simp only [exceptState]
      exact hP4
  | false =>
    simp only [hc, Bool.false_eq_true, if_false, exceptState]
    exact hF6

theorem finalState_calls (env : ConvEnv) (j0 : Job) :
    (finalState env j0).calls = (exceptState (tryPhase env (initState j0))).calls := by
  cases h : tryPhase env (initState j0) with
  | ok s => simp [finalState, h, exceptState]
  | error p =>
    simp [finalState, h, exceptState, handlerState, setMessage, setJobError, setStatus]

/-- Under an indicator-matching first failure, the try-phase retries on
the derived no-OCR snapshot of the same settings. -/
theorem tryPhase_retry_shape (env : ConvEnv) (s0 : RState) (m : String)
    (hcv : env.convert (analysisPhase s0).job.settings = Except.error m)
    (ho : is_ocr_error m = true) :
    tryPhase env s0 = (
      match env.convert (fallback_settings (analysisPhase s0).job.settings) with
      | .ok result => materialize env (setMessage (retryPrep (analysisPhase s0))
          "Converted without OCR (OCR initialization failed)") result
      | .error e => .error (retryPrep (analysisPhase s0), e)) := by
  simp only [tryPhase, hcv, ho, if_true]
  rw [(retryPrep_spec (analysisPhase s0)).1]

/-- Every full run of _run_conversion either completes the job with
progress 100, or fails it; in both cases the status history is the
initial status, then processing, then exactly the one terminal state, and
on failure the error field carries either the non-empty engine-status
message or the raising exception's message. -/
theorem run_conversion_outcomes (env : ConvEnv) (j0 : Job) (cb : Bool) :
    ((run_conversion env j0 cb).statusHistory
        = [j0.status, ConversionStatus.processing, ConversionStatus.completed]
      ∧ (run_conversion env j0 cb).job.status = ConversionStatus.completed
      ∧ (run_conversion env j0 cb).job.progress = 100
      ∧ (run_conversion env j0 cb).job.error = j0.error)
    ∨ ((run_conversion env j0 cb).statusHistory
        = [j0.status, ConversionStatus.processing, ConversionStatus.failed]
      ∧ (run_conversion env j0 cb).job.status = ConversionStatus.failed
      ∧ ∃ m, (run_conversion env j0 cb).job.error = some m
          ∧ (m ≠ ""
             ∨ (∃ st, env.convert st = Except.error m)
             ∨ env.exportMarkdown = Except.error m)) := by
  obtain ⟨hp1, hp2, hp3, hp4, hp5, hp6, hp7, hp8, hp9⟩ := run_conversion_proj env j0 cb
  rcases tryPhase_outcomes env (initState j0) with
    ⟨s2, heq, h1, h2, h3, h4⟩ | ⟨s2, r, heq, h1, h2, h3⟩ | ⟨s2, e, heq, h1, h2⟩
  · left
    rw [hp1, hp5, hp6, hp7, finalState_eq_ok env j0 s2 heq]
    refine ⟨?_, h2, h3, ?_⟩
    · rw [h1]
      simp [initState]
    · rw [h4]
      simp [initState]
  · right
    rw [hp1, hp5, hp7, finalState_eq_ok env j0 s2 heq]
    refine ⟨?_, h2, failStatusError r, h3, Or.inl (failStatusError_ne_empty r)⟩
    rw [h1]
    simp [initState]
  · right
    obtain ⟨hh1, hh2, hh3, hh4, hh5, hh6, hh7, hh8⟩ := handlerState_spec (s2, e)
    rw [hp1, hp5, hp7, finalState_eq_error env j0 (s2, e) heq]
    refine ⟨?_, hh2, e, hh3, Or.inr h2⟩
    rw [hh1, h1]
    simp [initState]

/-- C1: a job processed by _run_conversion starts pending at creation
(ConversionJob.__init__), is set to processing when the worker picks it
up, and then reaches exactly one of completed or failed: its full status
history is pending, processing, then the single terminal state, and no
assignment ever moves it back to pending or processing afterwards. -/
theorem claim_C1_job_state_machine (env : ConvEnv) (jobId inputPath origName : String)
    (osettings : Option (List (String × PyVal))) (t0 : Nat) (cb : Bool) :
    (ConversionJob_init jobId inputPath origName osettings t0).status = ConversionStatus.pending
    ∧ (((run_conversion env (ConversionJob_init jobId inputPath origName osettings t0)
            cb).statusHistory
          = [ConversionStatus.pending, ConversionStatus.processing, ConversionStatus.completed]
        ∧ (run_conversion env (ConversionJob_init jobId inputPath origName osettings t0)
            cb).job.status = ConversionStatus.completed)
      ∨ ((run_conversion env (ConversionJob_init jobId inputPath origName osettings t0)
            cb).statusHistory
          = [ConversionStatus.pending, ConversionStatus.processing, ConversionStatus.failed]
        ∧ (run_conversion env (ConversionJob_init jobId inputPath origName osettings t0)
            cb).job.status = ConversionStatus.failed)) := by
  refine ⟨rfl, ?_⟩
  rcases run_conversion_outcomes env (ConversionJob_init jobId inputPath origName osettings t0)
      cb with ⟨h1, h2, _, _⟩ | ⟨h1, h2, _⟩
  · exact Or.inl ⟨h1, h2⟩
  · exact Or.inr ⟨h1, h2⟩

/-- C3: with a non-None on_complete callback, the callback is invoked
exactly once per run, and at the moment of invocation the job's
completed_at has already been set (to the finally-block timestamp); this
holds on every execution path of _run_conversion. -/
theorem claim_C3_callback_exactly_once (env : ConvEnv) (j0 : Job) :
    (run_conversion env j0 true).callbackRuns.length = 1
    ∧ ∀ j ∈ (run_conversion env j0 true).callbackRuns, j.completedAt = some env.now := by
  simp [run_conversion]

theorem envDiskFull_nonempty : envErrorsNonEmpty envDiskFull := by
  constructor
  · intro st m h
    have h2 : (Except.error "disk full" : Except String EngineResult) = Except.error m := h
    rw [← Except.error.inj h2]
    decide
  · intro m h
    have h2 : (Except.ok "# heading" : Except String String) = Except.error m := h
    exact Except.noConfusion h2

/-- C6 counterexample: a raised exception whose message is empty (Python
allows raise Exception("")) leaves the failed job with an empty error
string, refuting the claim that the error of every failed job is
non-empty. -/
theorem claim_C6_counterexample :
    (run_conversion envEmptyMsg jobW true).job.status = ConversionStatus.failed
    ∧ (run_conversion envEmptyMsg jobW true).job.error = some "" := by decide

/-- Any engine invocation recorded in a run's trace that returned a result
whose status is neither SUCCESS nor PARTIAL_SUCCESS sends the try-block to
the engine-failure terminal state: the try-phase returns normally with the
job failed and its error set to the status-derived message. -/
theorem tryPhase_engine_status_fail (env : ConvEnv) (s0 : RState)
    (st : List (String × PyVal)) (r : EngineResult)
    (hnil : s0.calls = [])
    (hmem : st ∈ (exceptState (tryPhase env s0)).calls)
    (hok : env.convert st = Except.ok r)
    (hbad : (r.statusName == "SUCCESS" || r.statusName == "PARTIAL_SUCCESS") = false) :
    ∃ s2, tryPhase env s0 = Except.ok s2
      ∧ s2.job.status = ConversionStatus.failed
      ∧ s2.job.error = some (failStatusError r) := by
  obtain ⟨hA1, hA2, hA3, hA4, hA5, hA6, hA7, hA8, hA9, hA10⟩ := analysisPhase_spec s0
  obtain ⟨hR1, hR2, hR3, hR4, hR5, hR6, hR7, hR8, hR9, hR10⟩ :=
    retryPrep_spec (analysisPhase s0)
  cases h1 : env.convert (analysisPhase s0).job.settings with
  | ok r1 =>
    have htp : tryPhase env s0 = materialize env (analysisPhase s0) r1 := by
      simp only [tryPhase, h1]
    rw [htp, materialize_calls, hA4, hnil] at hmem
    have hst : st = s0.job.settings := by simpa using hmem
    have hr : r1 = r := by
      rw [hA1, ← hst, hok] at h1
      exact (Except.ok.inj h1).symm
    subst hr
    obtain ⟨hF1, hF2, hF3, hF4, hF5, hF6, hF7⟩ := engineFailState_spec (analysisPhase s0) r1
    refine ⟨engineFailState (analysisPhase s0) r1, ?_, hF2, hF3⟩
    rw [htp]
    simp [materialize, hbad]
  | error m =>
    by_cases hocr : is_ocr_error m = true
    · have hshape := tryPhase_retry_shape env s0 m h1 hocr
      cases h2 : env.convert (fallback_settings (analysisPhase s0).job.settings) with
      | ok r2 =>
        rw [h2] at hshape
        rw [hshape, materialize_calls] at hmem
        simp only [setMessage] at hmem
        rw [hR4, hA4, hnil, hA1] at hmem
        simp at hmem
        rcases hmem with hst | hst
        · rw [hA1, ← hst, hok] at h1
          exact absurd h1 (by simp)
        · have hr : r2 = r := by
            rw [hA1, ← hst, hok] at h2
            exact (Except.ok.inj h2).symm
          subst hr
          obtain ⟨hF1, hF2, hF3, hF4, hF5, hF6, hF7⟩ :=
            engineFailState_spec (setMessage (retryPrep (analysisPhase s0))
              "Converted without OCR (OCR initialization failed)") r2
          refine ⟨engineFailState (setMessage (retryPrep (analysisPhase s0))
            "Converted without OCR (OCR initialization failed)") r2, ?_, hF2, hF3⟩
          rw [hshape]
          simp [materialize, hbad]
      | error m2 =>
        rw [h2] at hshape
        rw [hshape] at hmem
        simp only [exceptState] at hmem
        rw [hR4, hA4, hnil, hA1] at hmem
        simp at hmem
        rcases hmem with hst | hst
        · rw [hA1, ← hst, hok] at h1
          exact absurd h1 (by simp)
        · rw [hA1, ← hst, hok] at h2
          exact absurd h2 (by simp)
    · have hocr' : is_ocr_error m = false := by simpa using hocr
      have htp : tryPhase env s0 = .error (analysisPhase s0, m) := by
        simp only [tryPhase, h1, hocr']
        simp
      rw [htp] at hmem
      simp only [exceptState] at hmem
      rw [hA4, hnil] at hmem
      have hst : st = s0.job.settings := by simpa using hmem
      rw [hA1, ← hst, hok] at h1
      exact absurd h1 (by simp)

/-- C6 (amended): every job that reaches completed has progress 100; every
job that reaches failed has its error field set; a job failed via an
engine result whose status is neither SUCCESS nor PARTIAL_SUCCESS — an
engine invocation recorded in the run's trace returning such a result —
unconditionally gets the non-empty status-derived error; on the exception
path the error copies str(e) verbatim, hence is non-empty exactly under
the premise that every exception message the engine or the markdown
export can raise is non-empty (an empty exception message yields an
empty error). -/
theorem claim_C6_completed_progress_failed_error (env : ConvEnv) (j0 : Job) (cb : Bool) :
    ((run_conversion env j0 cb).job.status = ConversionStatus.completed →
      (run_conversion env j0 cb).job.progress = 100)
    ∧ ((run_conversion env j0 cb).job.status = ConversionStatus.failed →
      ∃ m, (run_conversion env j0 cb).job.error = some m)
    ∧ (∀ st r, st ∈ (run_conversion env j0 cb).convertCalls →
      env.convert st = Except.ok r →
      r.statusName ≠ "SUCCESS" → r.statusName ≠ "PARTIAL_SUCCESS" →
      (run_conversion env j0 cb).job.status = ConversionStatus.failed
      ∧ (run_conversion env j0 cb).job.error = some (failStatusError r)
      ∧ failStatusError r ≠ "")
    ∧ (envErrorsNonEmpty env →
      (run_conversion env j0 cb).job.status = ConversionStatus.failed →
      ∃ m, (run_conversion env j0 cb).job.error = some m ∧ m ≠ "") := by
  obtain ⟨hp1, hp2, hp3, hp4, hp5, hp6, hp7, hp8, hp9⟩ := run_conversion_proj env j0 cb
  have houts := run_conversion_outcomes env j0 cb
  refine ⟨?_, ?_, ?_, ?_⟩
  · intro hst
    rcases houts with ⟨_, _, h3, _⟩ | ⟨_, h2, _, _, _⟩
    · exact h3
    · rw [h2] at hst
      exact absurd hst (by decide)
  · intro hst
    rcases houts with ⟨_, h2, _, _⟩ | ⟨_, _, m, hm, _⟩
    · rw [h2] at hst
      exact absurd hst (by decide)
    · exact ⟨m, hm⟩
  · intro st r hmem hok h1 h2
    have hbad : (r.statusName == "SUCCESS" || r.statusName == "PARTIAL_SUCCESS") = false := by
      simp only [Bool.or_eq_false_iff, beq_eq_false_iff_ne, ne_eq]
      exact ⟨h1, h2⟩
    rw [hp3, finalState_calls] at hmem
    obtain ⟨s2, htp, hst2, herr⟩ :=
      tryPhase_engine_status_fail env (initState j0) st r rfl hmem hok hbad
    rw [hp5, hp7, finalState_eq_ok _ _ _ htp]
    exact ⟨hst2, herr, failStatusError_ne_empty r⟩
  · intro hne hst
    rcases houts with ⟨_, h2, _, _⟩ | ⟨_, _, m, hm, hsrc⟩
    · rw [h2] at hst
      exact absurd hst (by decide)
    · refine ⟨m, hm, ?_⟩
      rcases hsrc with hnem | ⟨st, hcv⟩ | hmd
      · exact hnem
      · exact hne.1 st m hcv
      · exact hne.2 m hmd

/-- Witness for C6 (amended) at concrete inputs: with the engine reporting
a FAILURE status and the markdown export primed to raise an empty-message
exception (never consulted on this path), the job fails with the
non-empty status-derived error; and in the disk-full environment, whose
exception messages are all non-empty, the failed job's error is
non-empty. -/
theorem claim_C6_completed_progress_failed_error_witness :
    ((run_conversion envStatusFail jobW true).job.status = ConversionStatus.failed
      ∧ (run_conversion envStatusFail jobW true).job.error = some (failStatusError resFail)
      ∧ failStatusError resFail ≠ "")
    ∧ ∃ m, (run_conversion envDiskFull jobW true).job.error = some m ∧ m ≠ "" := by
  refine ⟨?_, ?_⟩
  · refine (claim_C6_completed_progress_failed_error envStatusFail jobW true).2.2.1
      jobW.settings resFail ?_ rfl (by decide) (by decide)
    have hc : (run_conversion envStatusFail jobW true).convertCalls = [jobW.settings] := rfl
    rw [hc]
    exact List.mem_singleton.mpr rfl
  · exact (claim_C6_completed_progress_failed_error envDiskFull jobW true).2.2.2
      envDiskFull_nonempty (by decide)

/-- C4 counterexample: with a successful engine result, an exception in
the markdown export makes the whole job fail — the remaining exports are
not attempted (only "markdown" is entered) and the html artifact is not
recorded even though the html export would have succeeded — refuting the
claim that each of the six exports is a separate fail-independently step
that cannot fail the job. -/
theorem claim_C4_counterexample :
    (run_conversion envMdBoom jobW true).job.status = ConversionStatus.failed
    ∧ (run_conversion envMdBoom jobW true).exportsAttempted = ["markdown"]
    ∧ lookupKey (run_conversion envMdBoom jobW true).job.outputPaths "html" = none
    ∧ (run_conversion envMdBoom jobW true).job.error = some "boom"
    ∧ exOk envMdBoom.exportHtml = true := by decide

/-- C4 (amended): on a success or partial-success engine result, the five
guarded exports (html, json, structured json tokens, text, doctags) are
each attempted in their own fail-independently step — a format's path is
recorded exactly when its own export succeeds, the others still run, and
the job still completes regardless of their failures — but the markdown
export is not guarded: if it raises, no further export is attempted and
the job fails carrying that exception's message. -/
theorem claim_C4_export_isolation (env : ConvEnv) (jobId inputPath origName : String)
    (osettings : Option (List (String × PyVal))) (t0 : Nat) (cb : Bool) (r : EngineResult)
    (hcv : env.convert (ConversionJob_init jobId inputPath origName osettings t0).settings
      = Except.ok r)
    (hr : r.statusName = "SUCCESS" ∨ r.statusName = "PARTIAL_SUCCESS") :
    (∀ md, env.exportMarkdown = Except.ok md →
      (run_conversion env (ConversionJob_init jobId inputPath origName osettings t0)
          cb).job.status = ConversionStatus.completed
      ∧ (run_conversion env (ConversionJob_init jobId inputPath origName osettings t0)
          cb).exportsAttempted
          = ["markdown", "html", "json", "text", "doctags", "document_tokens"]
      ∧ (lookupKey (run_conversion env (ConversionJob_init jobId inputPath origName osettings
          t0) cb).job.outputPaths "markdown").isSome = true
      ∧ (lookupKey (run_conversion env (ConversionJob_init jobId inputPath origName osettings
          t0) cb).job.outputPaths "html").isSome = exOk env.exportHtml
      ∧ (lookupKey (run_conversion env (ConversionJob_init jobId inputPath origName osettings
          t0) cb).job.outputPaths "json").isSome = exOk env.exportJson
      ∧ (lookupKey (run_conversion env (ConversionJob_init jobId inputPath origName osettings
          t0) cb).job.outputPaths "text").isSome = exOk env.exportText
      ∧ (lookupKey (run_conversion env (ConversionJob_init jobId inputPath origName osettings
          t0) cb).job.outputPaths "doctags").isSome = exOk env.exportDoctags
      ∧ (lookupKey (run_conversion env (ConversionJob_init jobId inputPath origName osettings
          t0) cb).job.outputPaths "document_tokens").isSome = exOk env.exportTokens)
    ∧ (∀ e, env.exportMarkdown = Except.error e →
      (run_conversion env (ConversionJob_init jobId inputPath origName osettings t0)
          cb).job.status = ConversionStatus.failed
      ∧ (run_conversion env (ConversionJob_init jobId inputPath origName osettings t0)
          cb).job.error = some e
      ∧ (run_conversion env (ConversionJob_init jobId inputPath origName osettings t0)
          cb).exportsAttempted = ["markdown"]) := by
  have hc : (r.statusName == "SUCCESS" || r.statusName == "PARTIAL_SUCCESS") = true := by
    rcases hr with h | h <;> simp [h]
  obtain ⟨hA1, hA2, hA3, hA4, hA5, hA6, hA7, hA8, hA9, hA10⟩ :=
    analysisPhase_spec (initState (ConversionJob_init jobId inputPath origName osettings t0))
  constructor
  · intro md hmd
    have htp : tryPhase env (initState (ConversionJob_init jobId inputPath origName osettings t0))
        = .ok (materializeExports env (materializePrep env (analysisPhase
            (initState (ConversionJob_init jobId inputPath origName osettings t0)))) r md) := by
      simp only [tryPhase, hA1]
      rw [show env.convert (initState (ConversionJob_init jobId inputPath origName osettings
        t0)).job.settings = Except.ok r from hcv]
      simp [materialize, hc, hmd]
    obtain ⟨hP1, hP2, hP3, hP4, hP5, hP6, hP7, hP8, hP9, hP10⟩ :=
      materializePrep_spec env (analysisPhase
        (initState (ConversionJob_init jobId inputPath origName osettings t0)))
    obtain ⟨hE1, hE2, hE3, hE4, hE5, hE6, hE7, hE8⟩ :=
      materializeExports_spec env (materializePrep env (analysisPhase
        (initState (ConversionJob_init jobId inputPath origName osettings t0)))) r md
    have hzero : (materializePrep env (analysisPhase
        (initState (ConversionJob_init jobId inputPath origName osettings
          t0)))).job.outputPaths = [] := by
      rw [hP8, hA8]
      rfl
    obtain ⟨hQ1, hQ2, hQ3, hQ4, hQ5, hQ6⟩ :=
      materializeExports_paths env (materializePrep env (analysisPhase
        (initState (ConversionJob_init jobId inputPath origName osettings t0)))) r md hzero
    obtain ⟨hp1, hp2, hp3, hp4, hp5, hp6, hp7, hp8, hp9⟩ :=
      run_conversion_proj env (ConversionJob_init jobId inputPath origName osettings t0) cb
    rw [hp4, hp5, hp9, finalState_eq_ok _ _ _ htp]
    refine ⟨hE2, ?_, hQ1, hQ2, hQ3, hQ4, hQ5, hQ6⟩
    rw [hE6, hP5, hA5]
    rfl
  · intro e hmd
    have htp : tryPhase env (initState (ConversionJob_init jobId inputPath origName osettings t0))
        = .error (materializePrep env (analysisPhase
            (initState (ConversionJob_init jobId inputPath origName osettings t0))), e) := by
      simp only [tryPhase, hA1]
      rw [show env.convert (initState (ConversionJob_init jobId inputPath origName osettings
        t0)).job.settings = Except.ok r from hcv]
      simp [materialize, hc, hmd]
    obtain ⟨hP1, hP2, hP3, hP4, hP5, hP6, hP7, hP8, hP9, hP10⟩ :=
      materializePrep_spec env (analysisPhase
        (initState (ConversionJob_init jobId inputPath origName osettings t0)))
    obtain ⟨hp1, hp2, hp3, hp4, hp5, hp6, hp7, hp8, hp9⟩ :=
      run_conversion_proj env (ConversionJob_init jobId inputPath origName osettings t0) cb
    obtain ⟨hh1, hh2, hh3, hh4, hh5, hh6, hh7, hh8⟩ := handlerState_spec
      (materializePrep env (analysisPhase
        (initState (ConversionJob_init jobId inputPath origName osettings t0))), e)
    rw [hp4, hp5, hp7, finalState_eq_error _ _ _ htp]
    refine ⟨hh2, hh3, ?_⟩
    rw [hh5, hP5, hA5]
    rfl

/-- Witness for C4 (amended) at a concrete input: engine succeeds, the
html export alone raises — the job still completes, all six export steps
run, the html path is simply absent while the other five are recorded. -/
theorem claim_C4_export_isolation_witness :
    (run_conversion envHtmlBoom jobW true).job.status = ConversionStatus.completed
    ∧ (run_conversion envHtmlBoom jobW true).exportsAttempted
        = ["markdown", "html", "json", "text", "doctags", "document_tokens"]
    ∧ (lookupKey (run_conversion envHtmlBoom jobW true).job.outputPaths "markdown").isSome
        = true
    ∧ (lookupKey (run_conversion envHtmlBoom jobW true).job.outputPaths "html").isSome
        = exOk envHtmlBoom.exportHtml
    ∧ (lookupKey (run_conversion envHtmlBoom jobW true).job.outputPaths "json").isSome
        = exOk envHtmlBoom.exportJson
    ∧ (lookupKey (run_conversion envHtmlBoom jobW true).job.outputPaths "text").isSome
        = exOk envHtmlBoom.exportText
    ∧ (lookupKey (run_conversion envHtmlBoom jobW true).job.outputPaths "doctags").isSome
        = exOk envHtmlBoom.exportDoctags
    ∧ (lookupKey (run_conversion envHtmlBoom jobW true).job.outputPaths
        "document_tokens").isSome = exOk envHtmlBoom.exportTokens :=
  (claim_C4_export_isolation envHtmlBoom "job-1" "/uploads/doc.pdf" "doc.pdf" none 0 true
      { statusName := "SUCCESS", errors := [] } rfl (Or.inl rfl)).1 "# heading" rfl

/-- C5 (amended): an exception from the first conversion attempt whose
message matches one of the curated OCR/accelerator indicator substrings
(case-insensitively) triggers exactly one retry, on a derived settings
snapshot whose ocr.enabled flag is forced to False; if the retry returns a
successful engine result the job completes — the explanatory message
"Converted without OCR (OCR initialization failed)" is surfaced
transiently in the message history, but the completed job's final message
is the generic completion message; a non-matching exception fails the job
with no retry, and a failing retry fails the job, in both cases carrying
that exception's message. -/
theorem claim_C5_degraded_ocr_retry (env : ConvEnv) (j0 : Job) (cb : Bool) (m : String)
    (hcv : env.convert j0.settings = Except.error m) :
    pyGet2 (fallback_settings j0.settings) "ocr" "enabled" (PyVal.vbool true)
        = PyVal.vbool false
    ∧ (is_ocr_error m = true →
        (run_conversion env j0 cb).convertCalls
          = [j0.settings, fallback_settings j0.settings])
    ∧ (is_ocr_error m = false →
        (run_conversion env j0 cb).convertCalls = [j0.settings]
        ∧ (run_conversion env j0 cb).job.status = ConversionStatus.failed
        ∧ (run_conversion env j0 cb).job.error = some m)
    ∧ (∀ r md, is_ocr_error m = true →
        env.convert (fallback_settings j0.settings) = Except.ok r →
        r.statusName = "SUCCESS" →
        env.exportMarkdown = Except.ok md →
        (run_conversion env j0 cb).job.status = ConversionStatus.completed
        ∧ "Converted without OCR (OCR initialization failed)"
            ∈ (run_conversion env j0 cb).messageHistory
        ∧ (run_conversion env j0 cb).job.message = "Conversion completed successfully")
    ∧ (∀ m2, is_ocr_error m = true →
        env.convert (fallback_settings j0.settings) = Except.error m2 →
        (run_conversion env j0 cb).job.status = ConversionStatus.failed
        ∧ (run_conversion env j0 cb).job.error = some m2) := by
  obtain ⟨hA1, hA2, hA3, hA4, hA5, hA6, hA7, hA8, hA9, hA10⟩ := analysisPhase_spec (initState j0)
  obtain ⟨hR1, hR2, hR3, hR4, hR5, hR6, hR7, hR8, hR9, hR10⟩ :=
    retryPrep_spec (analysisPhase (initState j0))
  obtain ⟨hp1, hp2, hp3, hp4, hp5, hp6, hp7, hp8, hp9⟩ := run_conversion_proj env j0 cb
  have hAs : (analysisPhase (initState j0)).job.settings = j0.settings := hA1
  have hcv0 : env.convert (analysisPhase (initState j0)).job.settings = Except.error m := by
    rw [hAs]
    exact hcv
  refine ⟨?_, ?_, ?_, ?_, ?_⟩
  · simp [fallback_settings, pyGet2, lookupKey_setKey_self]
  · intro ho
    have hshape := tryPhase_retry_shape env (initState j0) m hcv0 ho
    rw [hAs] at hshape
    rw [hp3, finalState_calls]
    cases h2 : env.convert (fallback_settings j0.settings) with
    | ok r =>
      rw [h2] at hshape
      rw [hshape, materialize_calls]
      simp only [setMessage]
      rw [hR4, hA4, hAs]
      rfl
    | error e =>
      rw [h2] at hshape
      rw [hshape]
      simp only [exceptState]
      rw [hR4, hA4, hAs]
      rfl
  · intro ho
    have htp : tryPhase env (initState j0) = .error (analysisPhase (initState j0), m) := by
      simp only [tryPhase, hcv0, ho]
      simp
    obtain ⟨hh1, hh2, hh3, hh4, hh5, hh6, hh7, hh8⟩ :=
      handlerState_spec (analysisPhase (initState j0), m)
    rw [hp3, hp5, hp7, finalState_eq_error _ _ _ htp]
    refine ⟨?_, hh2, hh3⟩
    rw [hh4, hA4]
    rfl
  · intro r md ho h2 hs hmd
    have hshape := tryPhase_retry_shape env (initState j0) m hcv0 ho
    rw [hAs, h2] at hshape
    have hc : (r.statusName == "SUCCESS" || r.statusName == "PARTIAL_SUCCESS") = true := by
      simp [hs]
    have htp : tryPhase env (initState j0)
        = .ok (materializeExports env (materializePrep env
            (setMessage (retryPrep (analysisPhase (initState j0)))
              "Converted without OCR (OCR initialization failed)")) r md) := by
      rw [hshape]
      simp [materialize, hc, hmd]
    obtain ⟨hP1, hP2, hP3, hP4, hP5, hP6, hP7, hP8, hP9, hP10⟩ :=
      materializePrep_spec env (setMessage (retryPrep (analysisPhase (initState j0)))
        "Converted without OCR (OCR initialization failed)")
    obtain ⟨hE1, hE2, hE3, hE4, hE5, hE6, hE7, hE8⟩ :=
      materializeExports_spec env (materializePrep env
        (setMessage (retryPrep (analysisPhase (initState j0)))
          "Converted without OCR (OCR initialization failed)")) r md
    rw [hp2, hp5, hp8, finalState_eq_ok _ _ _ htp]
    refine ⟨hE2, ?_, ?_⟩
    · rw [hE8, hP3]
      simp only [setMessage]
      rw [hR3]
      simp
    · rw [hE7]
      simp [hs]
  · intro m2 ho h2
    have hshape := tryPhase_retry_shape env (initState j0) m hcv0 ho
    rw [hAs, h2] at hshape
    obtain ⟨hh1, hh2, hh3, hh4, hh5, hh6, hh7, hh8⟩ :=
      handlerState_spec (retryPrep (analysisPhase (initState j0)), m2)
    rw [hp5, hp7, finalState_eq_error _ _ _ hshape]
    exact ⟨hh2, hh3⟩

/-- C5 counterexample: in the spec's CUDA scenario the job does complete,
but its message at completion is the generic completion message, which
does not mention OCR at all — the explanatory message exists only
transiently while processing, refuting "completes with an explanatory
message" as a property of the completed job. -/
theorem claim_C5_counterexample :
    (run_conversion envCuda jobW true).job.status = ConversionStatus.completed
    ∧ (run_conversion envCuda jobW true).job.message = "Conversion completed successfully"
    ∧ containsLower (run_conversion envCuda jobW true).job.message "OCR" = false := by decide

/-- Witness for C5 (amended) in the concrete CUDA scenario. -/
theorem claim_C5_degraded_ocr_retry_witness :
    pyGet2 (fallback_settings jobW.settings) "ocr" "enabled" (PyVal.vbool true)
        = PyVal.vbool false
    ∧ (run_conversion envCuda jobW true).convertCalls
        = [jobW.settings, fallback_settings jobW.settings]
    ∧ (run_conversion envCuda jobW true).job.status = ConversionStatus.completed
    ∧ "Converted without OCR (OCR initialization failed)"
        ∈ (run_conversion envCuda jobW true).messageHistory
    ∧ (run_conversion envCuda jobW true).job.message
        = "Conversion completed successfully" := by
  obtain ⟨w1, w2, _, w4, _⟩ :=
    claim_C5_degraded_ocr_retry envCuda jobW true "CUDA error: meta tensor" rfl
  obtain ⟨x1, x2, x3⟩ := w4 { statusName := "SUCCESS", errors := [] } "# heading"
    (by decide) rfl rfl rfl
  exact ⟨w1, w2 (by decide), x1, x2, x3⟩

theorem aliveCount_filter (l : List Bool) :
    aliveCount (l.filter (fun b => b)) = aliveCount l := by
  induction l with
  | nil => rfl
  | cons b rest ih => cases b <;> simp [List.filter, aliveCount, ih]

theorem length_filter_eq_aliveCount (l : List Bool) :
    (l.filter (fun b => b)).length = aliveCount l := by
  induction l with
  | nil => rfl
  | cons b rest ih => cases b <;> simp [List.filter, aliveCount, ih]

theorem aliveCount_append (l1 l2 : List Bool) :
    aliveCount (l1 ++ l2) = aliveCount l1 + aliveCount l2 := by
  induction l1 with
  | nil => simp [aliveCount]
  | cons b rest ih =>
    cases b
    · simpa [aliveCount] using ih
    · simp only [List.cons_append, aliveCount, List.append_eq]
      rw [ih]
      omega

theorem aliveCount_set_false (l : List Bool) (i : Nat) :
    aliveCount (l.set i false) ≤ aliveCount l := by
  induction l generalizing i with
  | nil => simp [aliveCount]
  | cons b rest ih =>
    cases i with
    | zero =>
      cases b
      · simp [List.set, aliveCount]
      · simp only [List.set, aliveCount]
        omega
    | succ n =>
      cases b with
      | true =>
        simp only [List.set, aliveCount]
        exact Nat.add_le_add_right (ih n) 1
      | false =>
        simp only [List.set, aliveCount]
        exact ih n

/-- One _worker_loop iteration or thread event never pushes the live
thread count above the bound. -/
theorem poolStep_alive_le (s : PoolState) (e : PoolEvent)
    (h : aliveCount s.active ≤ max_concurrent_jobs) :
    aliveCount (poolStep s e).active ≤ max_concurrent_jobs := by
  cases e with
  | submit => exact h
  | iterate =>
    simp only [poolStep]
    split
    next hcond =>
      have hlen := hcond.1
      rw [length_filter_eq_aliveCount] at hlen
      simp only [aliveCount_append, aliveCount_filter, aliveCount]
      omega
    next =>
      simpa [aliveCount_filter] using h
  | finish i => exact le_trans (aliveCount_set_false _ _) h

/-- C2: starting from an idle service, under any sequence of submissions,
dispatcher-loop iterations and thread terminations, never are more than
_max_concurrent_jobs = 2 conversion threads alive: the dispatcher
launches a new conversion thread only when fewer than 2 previously
launched threads are still alive, and each launch consumes exactly one
queued job for exactly one new thread, so at most 2 jobs are ever in the
processing state simultaneously. -/
theorem claim_C2_bounded_worker_pool (events : List PoolEvent) :
    aliveCount (poolRun events).active ≤ max_concurrent_jobs
    ∧ max_concurrent_jobs = 2
    ∧ (∀ s : PoolState,
        ((s.active.filter (fun b => b)).length < max_concurrent_jobs ∧ 0 < s.queued →
          (poolStep s .iterate).queued + 1 = s.queued
          ∧ (poolStep s .iterate).active.length
              = (s.active.filter (fun b => b)).length + 1)
        ∧ (¬((s.active.filter (fun b => b)).length < max_concurrent_jobs ∧ 0 < s.queued) →
          (poolStep s .iterate).queued = s.queued
          ∧ (poolStep s .iterate).active = s.active.filter (fun b => b))) := by
  refine ⟨?_, rfl, ?_⟩
  · have hgen : ∀ (evs : List PoolEvent) (s : PoolState),
        aliveCount s.active ≤ max_concurrent_jobs →
        aliveCount (evs.foldl poolStep s).active ≤ max_concurrent_jobs := by
      intro evs
      induction evs with
      | nil => intro s h; exact h
      | cons e rest ih =>
        intro s h
        exact ih _ (poolStep_alive_le s e h)
    exact hgen events _ (by simp [aliveCount])
  · intro s
    constructor
    · intro hc
      have hq := hc.2
      simp only [poolStep, if_pos hc]
      refine ⟨?_, by simp⟩
      omega
    · intro hc
      simp [poolStep, if_neg hc]

/-- Witness for C2 at a concrete input: three submissions and repeated
dispatcher iterations never exceed two live threads, and from a state
with three queued jobs and no threads, one iteration launches exactly one
thread for exactly one job. -/
theorem claim_C2_bounded_worker_pool_witness :
    aliveCount (poolRun [PoolEvent.submit, PoolEvent.submit, PoolEvent.submit,
      PoolEvent.iterate, PoolEvent.iterate, PoolEvent.iterate]).active ≤ max_concurrent_jobs
    ∧ (((⟨3, []⟩ : PoolState).active.filter (fun b => b)).length < max_concurrent_jobs
        ∧ 0 < (⟨3, []⟩ : PoolState).queued)
    ∧ (poolStep ⟨3, []⟩ .iterate).queued + 1 = (⟨3, []⟩ : PoolState).queued
    ∧ (poolStep ⟨3, []⟩ .iterate).active.length
        = ((⟨3, []⟩ : PoolState).active.filter (fun b => b)).length + 1 := by
  obtain ⟨h1, _, h3⟩ := claim_C2_bounded_worker_pool [PoolEvent.submit, PoolEvent.submit,
    PoolEvent.submit, PoolEvent.iterate, PoolEvent.iterate, PoolEvent.iterate]
  obtain ⟨hpos, _⟩ := h3 ⟨3, []⟩
  obtain ⟨ha, hb⟩ := hpos (by decide)
  exact ⟨h1, by decide, ha, hb⟩

/-- C8: ConverterService.create_job binds only input_path,
original_filename and settings — it has no job_id parameter — so the call
convert_from_url and convert_from_urls_batch make, passing three
positional arguments plus the keyword job_id, raises TypeError instead of
registering the job under the pre-allocated identifier, while the purely
positional call in upload_and_convert binds fine. -/
theorem claim_C8_create_job_no_job_id :
    create_job_params.contains "job_id" = false
    ∧ bindCall create_job_params create_job_num_defaults 3 ["job_id"]
        = Except.error "TypeError: got an unexpected keyword argument job_id"
    ∧ bindCall create_job_params create_job_num_defaults 3 [] = Except.ok () := by decide

/-- C9: the first request's job settings snapshot (a shallow copy of
DEFAULT_CONVERSION_SETTINGS at address 8) initially reads
ocr.enabled = True; the degraded-mode retry's fallback construction
builds fresh copies and leaves that snapshot untouched (conjuncts 2-3);
but a second request's deep-merge of the override ocr.enabled = False
recurses into the ocr dict object shared — through the shallow copies —
with the module-level defaults and with the first job's snapshot: after
request 2 the first job's attached snapshot reads ocr.enabled = False. -/
theorem claim_C9_snapshot_mutated_by_later_request :
    heapLookup2 heapAfterReq1.1 heapAfterReq1.2 "ocr" "enabled" = some (HVal.hbool true)
    ∧ heapLookup2 (fallbackHeap heapAfterReq1.1 heapAfterReq1.2).1 heapAfterReq1.2
        "ocr" "enabled" = some (HVal.hbool true)
    ∧ heapLookup2 (fallbackHeap heapAfterReq1.1 heapAfterReq1.2).1
        (fallbackHeap heapAfterReq1.1 heapAfterReq1.2).2 "ocr" "enabled"
        = some (HVal.hbool false)
    ∧ heapLookup2 heapAfterReq2 heapAfterReq1.2 "ocr" "enabled" = some (HVal.hbool false)
    ∧ heapLookup2 defaultHeap 0 "ocr" "enabled" = some (HVal.hbool true) := by decide

/-- C10: get_output_content and get_output_path are total functions of
the registry and an abstract filesystem; they return None whenever the
job is absent from the registry, or its status is anything other than
completed (in particular for every failed job, even when the recorded
file exists on disk), or the format key was never recorded, or the
recorded file does not exist — and return the content (respectively the
path) when all guards pass. -/
theorem claim_C10_output_retrieval (jobs : List (String × Job)) (fs : String → Option String)
    (jobId formatType : String) :
    (get_job jobs jobId = none →
      get_output_content jobs fs jobId formatType = none
      ∧ get_output_path jobs fs jobId formatType = none)
    ∧ (∀ job, get_job jobs jobId = some job → job.status ≠ ConversionStatus.completed →
      get_output_content jobs fs jobId formatType = none
      ∧ get_output_path jobs fs jobId formatType = none)
    ∧ (∀ job, get_job jobs jobId = some job →
      lookupKey job.outputPaths formatType = none →
      get_output_content jobs fs jobId formatType = none
      ∧ get_output_path jobs fs jobId formatType = none)
    ∧ (∀ job p, get_job jobs jobId = some job →
      lookupKey job.outputPaths formatType = some p → fs p = none →
      get_output_content jobs fs jobId formatType = none
      ∧ get_output_path jobs fs jobId formatType = none)
    ∧ (∀ job p c, get_job jobs jobId = some job → job.status = ConversionStatus.completed →
      lookupKey job.outputPaths formatType = some p → p ≠ "" → fs p = some c →
      get_output_content jobs fs jobId formatType = some c
      ∧ get_output_path jobs fs jobId formatType = some p) := by
  refine ⟨?_, ?_, ?_, ?_, ?_⟩
  · intro h
    simp [get_output_content, get_output_path, h]
  · intro job h hst
    simp [get_output_content, get_output_path, h, hst]
  · intro job h hl
    simp only [get_output_content, get_output_path, h, hl]
    constructor <;> split <;> rfl
  · intro job p h hl hfs
    simp only [get_output_content, get_output_path, h, hl]
    constructor <;> split <;> first | rfl | (split <;> simp [hfs])
  · intro job p c h hst hl hp hfs
    simp [get_output_content, get_output_path, h, hst, hl, hp, hfs]

/-- Witness for C10 at a concrete input: a failed job whose markdown
artifact does exist on disk is still not retrievable. -/
theorem claim_C10_output_retrieval_witness :
    fsX "outputs/job-1/doc.md" = some "# recovered"
    ∧ (get_output_content [("j1", failedJobX)] fsX "j1" "markdown" = none
       ∧ get_output_path [("j1", failedJobX)] fsX "j1" "markdown" = none) :=
  ⟨rfl, (claim_C10_output_retrieval [("j1", failedJobX)] fsX "j1" "markdown").2.1 failedJobX
    rfl (by decide)⟩

end Duckling

